import Mathlib

/-!
# Thread-state transitions of `runtime/interfaceSupport.inline.hpp`

A shallow embedding of `ThreadStateTransition` and of the scoped transition
classes built on it (`ThreadInVMfromJava`, `ThreadInVMfromUnknown`,
`ThreadInVMfromNative`, `ThreadToNativeFromVM`, `ThreadBlockInVMPreprocess`,
`ThreadBlockInVM`).

* The current `JavaThread` is a record of the fields the file reads or writes.
* Every function of the file is a function on a `Machine` (the thread plus the
  list of effects performed so far) that returns a `Result`: either `ok`, or
  `fatal` when an `assert` of the source fails (debug build); a `fatal` result
  carries the machine as it was when the assertion fired.
* The pause coordinator (`SafepointMechanism`), the flag
  `UseSystemMemoryBarrier`, `StackOverflow::enable_stack_yellow_reserved_zone`
  and the `PRE_PROC` call-back are not part of the file: they are parameters.
  Each of their calls is taken to return.
* A guard used as a stack object is a `scope`: constructor, block, destructor, in
  that order. The leaf macros (`VM_LEAF_BASE`, `JRT_LEAF`, `JNI_LEAF`, `JVM_LEAF`)
  are scopes as well, around the body they open.
* The constructor of the base class `ThreadStateTransition` asserts that its
  argument is the current thread and is not null; the machine's thread is the
  current thread, so both hold. Where the source leaves out a defaulted argument
  (`check_asyncs = true`, `allow_suspend = false`) the call passes it in full.
-/

namespace InterfaceSupport

/-- Modelled from the spec: the enumeration `JavaThreadState` is declared outside
this file; the spec (section 3) gives exactly four execution states, and these are
the four enumerators the file names: `InManaged`, `InRuntime`, `InNative`,
`Blocked`. -/
inductive JavaThreadState where
  | _thread_in_Java
  | _thread_in_vm
  | _thread_in_native
  | _thread_blocked
  deriving DecidableEq

open JavaThreadState

/-- Modelled from the spec: `JavaFrameAnchor` is declared outside this file. The
spec (section 3) describes `frameAnchor` as recording whether the managed stack is
walkable and the boundary frame if there is one; the file reads
`has_last_Java_frame()` and `walkable()`. -/
structure JavaFrameAnchor where
  has_last_Java_frame : Bool
  walkable : Bool
  deriving DecidableEq

/-- Modelled from the spec: `JavaFrameAnchor::make_walkable` is defined outside
this file; the spec (section 4.1, edge InRuntime to Blocked) says it marks the
stack walkable. -/
def JavaFrameAnchor.make_walkable (a : JavaFrameAnchor) : JavaFrameAnchor :=
  { a with walkable := true }

/-- Modelled from the spec: `StackOverflow` is declared outside this file; the
file reads only `stack_yellow_reserved_zone_disabled()`. -/
structure StackOverflow where
  stack_yellow_reserved_zone_disabled : Bool
  deriving DecidableEq

/-- Modelled from the spec: `JavaThread` is declared outside this file. The
record holds the `ThreadContext` attributes of the spec (section 3) and the
further fields that the assertions of this file read. -/
structure JavaThread where
  /-- Value of `thread_state()`, the spec's `state`. -/
  thread_state : JavaThreadState
  /-- Value of `frame_anchor()`, the spec's `frameAnchor`. -/
  frame_anchor : JavaFrameAnchor
  /-- Number of locks held, the spec's `heldLocks`. -/
  owned_locks : Nat
  /-- Number of live `NoSafepointVerifier`s, read by `check_possible_safepoint()`. -/
  no_safepoint_count : Nat
  /-- Value of `is_pending_jni_exception_check()`. -/
  pending_jni_exception_check : Bool
  /-- Value of `stack_overflow_state()`. -/
  stack_overflow_state : StackOverflow
  /-- The spec's `pendingAsyncException`. -/
  pending_async_exception : Bool
  /-- The spec's `suspendRequested`. -/
  suspend_requested : Bool
  /-- The spec's `handshakeRequested`. -/
  handshake_requested : Bool
  deriving DecidableEq

/-- Modelled from the spec: `JavaThread::owns_locks` is defined outside this
file; the spec speaks of `heldLocks` being nonzero. -/
def JavaThread.owns_locks (t : JavaThread) : Bool :=
  t.owned_locks != 0

/-- Modelled from the spec: `JavaThread::is_pending_jni_exception_check` is
defined outside this file: an exception-check obligation is outstanding. -/
def JavaThread.is_pending_jni_exception_check (t : JavaThread) : Bool :=
  t.pending_jni_exception_check

/-- Modelled from the spec: `JavaThread::has_last_Java_frame` is defined outside
this file; it is answered by the frame anchor. -/
def JavaThread.has_last_Java_frame (t : JavaThread) : Bool :=
  t.frame_anchor.has_last_Java_frame

/-- The collaborators that the file calls but does not define. -/
structure Collaborators where
  /-- The global flag `UseSystemMemoryBarrier` of `runtime/globals.hpp`. -/
  UseSystemMemoryBarrier : Bool
  /-- Effect on the thread of
  `SafepointMechanism::process_if_requested_with_exit_check(thread, check_async)`. -/
  process_if_requested_with_exit_check : JavaThread → Bool → JavaThread
  /-- Value of `SafepointMechanism::should_process(thread, allow_suspend)`. -/
  should_process : JavaThread → Bool → Bool
  /-- Effect on the thread of
  `SafepointMechanism::process_if_requested(thread, allow_suspend, check_async)`. -/
  process_if_requested : JavaThread → Bool → Bool → JavaThread
  /-- Effect of `StackOverflow::enable_stack_yellow_reserved_zone()`. -/
  enable_stack_yellow_reserved_zone : StackOverflow → StackOverflow

/-- One observable effect of the file. Calls of the pause coordinator record the
thread state in which they are made. -/
inductive Event where
  /-- Plain write `thread->set_thread_state(to)`. -/
  | set_thread_state (to_state : JavaThreadState)
  /-- Fenced write `thread->set_thread_state_fence(to)`. -/
  | set_thread_state_fence (to_state : JavaThreadState)
  /-- Call of `thread->frame_anchor()->make_walkable()`. -/
  | make_walkable
  /-- Fence `OrderAccess::storestore()`. -/
  | storestore
  /-- Call of `SafepointMechanism::process_if_requested_with_exit_check(thread, check_async)`. -/
  | process_if_requested_with_exit_check (at_state : JavaThreadState) (check_async : Bool)
  /-- Call of `SafepointMechanism::should_process(thread, allow_suspend)`. -/
  | should_process (at_state : JavaThreadState) (allow_suspend : Bool)
  /-- The call-back `_pr(_thread)`. -/
  | pre_proc (at_state : JavaThreadState)
  /-- Call of `SafepointMechanism::process_if_requested(thread, allow_suspend, check_async)`. -/
  | process_if_requested (at_state : JavaThreadState) (allow_suspend : Bool) (check_async : Bool)
  /-- Call of `stack_overflow_state()->enable_stack_yellow_reserved_zone()`. -/
  | enable_stack_yellow_reserved_zone
  deriving DecidableEq

/-- The assertions of the file, named by their message. -/
inductive Assertion where
  /-- Message "coming from wrong thread state". -/
  | coming_from_wrong_thread_state
  /-- Message "invalid transition". -/
  | invalid_transition
  /-- Message "Unwalkable stack in native transition". -/
  | unwalkable_stack_in_native_transition
  /-- The `NoSafepointVerifier` check of `check_possible_safepoint()`. -/
  | possible_safepoint_reached
  /-- Message "must release all locks when leaving VM". -/
  | must_release_all_locks_when_leaving_VM
  /-- Message "Pending JNI Exception Check". -/
  | pending_JNI_exception_check
  /-- The check of `os::verify_stack_alignment()`. -/
  | incorrect_stack_alignment
  /-- Message "JNIEnv is only valid in same thread". -/
  | JNIEnv_is_only_valid_in_same_thread
  deriving DecidableEq

/-- The current thread together with the effects performed so far. -/
structure Machine where
  thread : JavaThread
  trace : List Event
  deriving DecidableEq

/-- Outcome of running a piece of the file: normal completion with a value, or
a failed assertion together with the machine at that moment. -/
inductive Result (α : Type) where
  | ok (val : α) (m : Machine)
  | fatal (a : Assertion) (m : Machine)
  deriving DecidableEq

/-- The machine a result ends in. -/
def Result.machine {α : Type} : Result α → Machine
  | .ok _ m => m
  | .fatal _ m => m

/-- Whether the run completed without a failed assertion. -/
def Result.isOk {α : Type} : Result α → Bool
  | .ok _ _ => true
  | .fatal _ _ => false

/-- Sequencing: run `k` on the value and machine of a completed run; a failed
assertion ends the run. -/
def Result.bind {α β : Type} (r : Result α) (k : α → Machine → Result β) : Result β :=
  match r with
  | .ok a m => k a m
  | .fatal a m => .fatal a m

/-- The `assert(p, msg)` of a debug build: continue with `k` when `p` holds, end
the run in `fatal` with the machine untouched otherwise. -/
def vmassert {α : Type} (p : Prop) [Decidable p] (a : Assertion) (m : Machine)
    (k : Result α) : Result α :=
  if p then k else .fatal a m

/-- Plain state write `thread->set_thread_state(s)`. -/
def Machine.set_thread_state (m : Machine) (s : JavaThreadState) : Machine :=
  { thread := { m.thread with thread_state := s },
    trace := m.trace ++ [Event.set_thread_state s] }

/-- Fenced state write `thread->set_thread_state_fence(s)`. -/
def Machine.set_thread_state_fence (m : Machine) (s : JavaThreadState) : Machine :=
  { thread := { m.thread with thread_state := s },
    trace := m.trace ++ [Event.set_thread_state_fence s] }

/-- The call `thread->frame_anchor()->make_walkable()`. -/
def Machine.make_walkable (m : Machine) : Machine :=
  { thread := { m.thread with frame_anchor := m.thread.frame_anchor.make_walkable },
    trace := m.trace ++ [Event.make_walkable] }

/-- The fence `OrderAccess::storestore()`: no effect on the thread record. -/
def Machine.storestore (m : Machine) : Machine :=
  { m with trace := m.trace ++ [Event.storestore] }

/-- The call `SafepointMechanism::process_if_requested_with_exit_check(thread, c)`. -/
def Machine.process_if_requested_with_exit_check (E : Collaborators) (m : Machine)
    (check_async : Bool) : Machine :=
  { thread := E.process_if_requested_with_exit_check m.thread check_async,
    trace := m.trace ++
      [Event.process_if_requested_with_exit_check m.thread.thread_state check_async] }

/-- The call `SafepointMechanism::process_if_requested(thread, allow_suspend, c)`. -/
def Machine.process_if_requested (E : Collaborators) (m : Machine)
    (allow_suspend check_async : Bool) : Machine :=
  { thread := E.process_if_requested m.thread allow_suspend check_async,
    trace := m.trace ++
      [Event.process_if_requested m.thread.thread_state allow_suspend check_async] }

/-- The call `SafepointMechanism::should_process(thread, allow_suspend)`: its value
is `E.should_process m.thread allow_suspend`, the thread is not changed. -/
def Machine.should_process (m : Machine) (allow_suspend : Bool) : Machine :=
  { m with trace := m.trace ++ [Event.should_process m.thread.thread_state allow_suspend] }

/-- The call-back `_pr(_thread)`. -/
def Machine.pre_proc (m : Machine) (pr : JavaThread → JavaThread) : Machine :=
  { thread := pr m.thread,
    trace := m.trace ++ [Event.pre_proc m.thread.thread_state] }

/-- The call `stack_overflow_state()->enable_stack_yellow_reserved_zone()`. -/
def Machine.enable_stack_yellow_reserved_zone (E : Collaborators) (m : Machine) : Machine :=
  { thread := { m.thread with
      stack_overflow_state := E.enable_stack_yellow_reserved_zone m.thread.stack_overflow_state },
    trace := m.trace ++ [Event.enable_stack_yellow_reserved_zone] }

/-- Modelled from the spec: `JavaThread::check_possible_safepoint` is defined
outside this file. Per the spec (section 4.1) and the comment at its call it is the
assertion that no no-safepoint verifier is outstanding. -/
def Machine.check_possible_safepoint {α : Type} (m : Machine) (k : Result α) : Result α :=
  vmassert (m.thread.no_safepoint_count = 0) Assertion.possible_safepoint_reached m k

namespace ThreadStateTransition

/-- The function `ThreadStateTransition::transition_from_java(thread, to)`. -/
def transition_from_java (m : Machine) (to_state : JavaThreadState) : Result Unit :=
  vmassert (m.thread.thread_state = _thread_in_Java)
    Assertion.coming_from_wrong_thread_state m <|
  vmassert (to_state = _thread_in_vm ∨ to_state = _thread_in_native)
    Assertion.invalid_transition m <|
  Result.ok () (m.set_thread_state to_state)

/-- The function `ThreadStateTransition::transition_from_native(thread, to, check_asyncs)`. -/
def transition_from_native (E : Collaborators) (m : Machine) (to_state : JavaThreadState)
    (check_asyncs : Bool) : Result Unit :=
  vmassert (m.thread.thread_state = _thread_in_native)
    Assertion.coming_from_wrong_thread_state m <|
  vmassert (to_state = _thread_in_vm ∨ to_state = _thread_in_Java)
    Assertion.invalid_transition m <|
  vmassert (m.thread.has_last_Java_frame = false ∨ m.thread.frame_anchor.walkable = true)
    Assertion.unwalkable_stack_in_native_transition m <|
  let m1 :=
    if E.UseSystemMemoryBarrier = false then m.set_thread_state_fence _thread_in_vm
    else m.set_thread_state _thread_in_vm
  let m2 := m1.process_if_requested_with_exit_check E
    (if to_state ≠ _thread_in_Java then false else check_asyncs)
  Result.ok () (m2.set_thread_state to_state)

/-- The function `ThreadStateTransition::transition_from_vm(thread, to, check_asyncs)`. -/
def transition_from_vm (E : Collaborators) (m : Machine) (to_state : JavaThreadState)
    (check_asyncs : Bool) : Result Unit :=
  vmassert (m.thread.thread_state = _thread_in_vm)
    Assertion.coming_from_wrong_thread_state m <|
  if to_state = _thread_in_Java then
    Result.ok ()
      ((m.process_if_requested_with_exit_check E check_asyncs).set_thread_state to_state)
  else
    vmassert (to_state = _thread_in_native ∨ to_state = _thread_blocked)
      Assertion.invalid_transition m <|
    m.check_possible_safepoint <|
    Result.ok () (m.make_walkable.storestore.set_thread_state to_state)

end ThreadStateTransition

open ThreadStateTransition

/-- The class `ThreadInVMfromJava`. The base-class constructor only asserts that the
thread is the current one, which holds of the machine's thread. -/
structure ThreadInVMfromJava where
  _check_asyncs : Bool
  deriving DecidableEq

/-- Constructor `ThreadInVMfromJava(thread, check_asyncs)`. -/
def ThreadInVMfromJava.ctor (m : Machine) (check_asyncs : Bool) : Result ThreadInVMfromJava :=
  (transition_from_java m _thread_in_vm).bind fun _ m1 =>
    Result.ok { _check_asyncs := check_asyncs } m1

/-- Constructor `ThreadInVMfromJava(thread)`: `check_asyncs` defaults to `true`. -/
def ThreadInVMfromJava.ctor_default (m : Machine) : Result ThreadInVMfromJava :=
  ThreadInVMfromJava.ctor m true

/-- Destructor of `ThreadInVMfromJava`. -/
def ThreadInVMfromJava.dtor (E : Collaborators) (g : ThreadInVMfromJava) (m : Machine) :
    Result Unit :=
  let m1 :=
    if m.thread.stack_overflow_state.stack_yellow_reserved_zone_disabled = true then
      m.enable_stack_yellow_reserved_zone E
    else m
  transition_from_vm E m1 _thread_in_Java g._check_asyncs

/-- The class `ThreadInVMfromUnknown`. The member `_thread` is null or points to the
current thread: `true` stands for the latter. -/
structure ThreadInVMfromUnknown where
  _thread : Bool
  deriving DecidableEq

/-- Constructor `ThreadInVMfromUnknown()`. `is_Java_thread` is the value of
`Thread::current()->is_Java_thread()`; the machine's thread is looked at only when
it is `true`. -/
def ThreadInVMfromUnknown.ctor (E : Collaborators) (is_Java_thread : Bool) (m : Machine) :
    Result ThreadInVMfromUnknown :=
  if is_Java_thread = true then
    if m.thread.thread_state = _thread_in_native then
      (transition_from_native E m _thread_in_vm true).bind fun _ m1 =>
        Result.ok { _thread := true } m1
    else Result.ok { _thread := false } m
  else Result.ok { _thread := false } m

/-- Destructor of `ThreadInVMfromUnknown`. -/
def ThreadInVMfromUnknown.dtor (E : Collaborators) (g : ThreadInVMfromUnknown) (m : Machine) :
    Result Unit :=
  if g._thread = true then transition_from_vm E m _thread_in_native true
  else Result.ok () m

/-- The class `ThreadInVMfromNative`. Its member `__rnhm` concerns handle marks
only and is left out. -/
structure ThreadInVMfromNative where
  deriving DecidableEq

/-- Constructor `ThreadInVMfromNative(thread)`. -/
def ThreadInVMfromNative.ctor (E : Collaborators) (m : Machine) : Result ThreadInVMfromNative :=
  (transition_from_native E m _thread_in_vm true).bind fun _ m1 => Result.ok {} m1

/-- Destructor of `ThreadInVMfromNative`. -/
def ThreadInVMfromNative.dtor (E : Collaborators) (_g : ThreadInVMfromNative) (m : Machine) :
    Result Unit :=
  transition_from_vm E m _thread_in_native true

/-- The class `ThreadToNativeFromVM`. -/
structure ThreadToNativeFromVM where
  deriving DecidableEq

/-- Constructor `ThreadToNativeFromVM(thread)`. -/
def ThreadToNativeFromVM.ctor (E : Collaborators) (m : Machine) : Result ThreadToNativeFromVM :=
  vmassert (m.thread.owns_locks = false) Assertion.must_release_all_locks_when_leaving_VM m <|
  (transition_from_vm E m _thread_in_native true).bind fun _ m1 => Result.ok {} m1

/-- Destructor of `ThreadToNativeFromVM`. -/
def ThreadToNativeFromVM.dtor (E : Collaborators) (_g : ThreadToNativeFromVM) (m : Machine) :
    Result Unit :=
  (transition_from_native E m _thread_in_vm true).bind fun _ m1 =>
    vmassert (m1.thread.is_pending_jni_exception_check = false)
      Assertion.pending_JNI_exception_check m1 <|
    Result.ok () m1

/-- The class template `ThreadBlockInVMPreprocess<PRE_PROC>`; the call-back acts on
the thread. -/
structure ThreadBlockInVMPreprocess where
  _pr : JavaThread → JavaThread
  _allow_suspend : Bool

/-- Constructor `ThreadBlockInVMPreprocess(thread, pr, allow_suspend)`. -/
def ThreadBlockInVMPreprocess.ctor (E : Collaborators) (m : Machine)
    (pr : JavaThread → JavaThread) (allow_suspend : Bool) : Result ThreadBlockInVMPreprocess :=
  (transition_from_vm E m _thread_blocked true).bind fun _ m1 =>
    Result.ok { _pr := pr, _allow_suspend := allow_suspend } m1

/-- Destructor of `ThreadBlockInVMPreprocess`. -/
def ThreadBlockInVMPreprocess.dtor (E : Collaborators) (g : ThreadBlockInVMPreprocess)
    (m : Machine) : Result Unit :=
  vmassert (m.thread.thread_state = _thread_blocked)
    Assertion.coming_from_wrong_thread_state m <|
  let m1 := m.set_thread_state_fence _thread_in_vm
  let m2 := m1.should_process g._allow_suspend
  if E.should_process m1.thread g._allow_suspend = true then
    Result.ok () ((m2.pre_proc g._pr).process_if_requested E g._allow_suspend false)
  else Result.ok () m2

/-- The call-back `ThreadBlockInVM::emptyOp`: an empty body. -/
def ThreadBlockInVM.emptyOp (current : JavaThread) : JavaThread := current

/-- Constructor `ThreadBlockInVM(thread, allow_suspend)`; the destructor is the one
of `ThreadBlockInVMPreprocess`. -/
def ThreadBlockInVM.ctor (E : Collaborators) (m : Machine) (allow_suspend : Bool) :
    Result ThreadBlockInVMPreprocess :=
  ThreadBlockInVMPreprocess.ctor E m ThreadBlockInVM.emptyOp allow_suspend

/-- Modelled from the spec: the legal edges of the table of section 4.1 (the row
"Unknown" is the edge InNative to InRuntime). -/
def edge_table : JavaThreadState → JavaThreadState → Bool
  | _thread_in_Java, _thread_in_vm => true
  | _thread_in_vm, _thread_in_Java => true
  | _thread_in_vm, _thread_in_native => true
  | _thread_in_native, _thread_in_vm => true
  | _thread_in_vm, _thread_blocked => true
  | _thread_blocked, _thread_in_vm => true
  | _, _ => false

/-! ## Scopes: constructor, block, destructor -/

/-- The block `{ ThreadInVMfromJava __tiv(thread, check_asyncs); body }` (the shape of
`JRT_ENTRY`, `JRT_ENTRY_NO_ASYNC`, `JRT_BLOCK`): the destructor runs when the block
is left; a failed assertion ends the run. -/
def ThreadInVMfromJava.scope (E : Collaborators) (check_asyncs : Bool)
    (body : Machine → Result Unit) (m : Machine) : Result Unit :=
  (ThreadInVMfromJava.ctor m check_asyncs).bind fun g m1 =>
    (body m1).bind fun _ m2 => ThreadInVMfromJava.dtor E g m2

/-- The block `{ ThreadInVMfromNative __tiv(thread); body }` (the shape of `JNI_ENTRY`
and `JVM_ENTRY`). -/
def ThreadInVMfromNative.scope (E : Collaborators) (body : Machine → Result Unit)
    (m : Machine) : Result Unit :=
  (ThreadInVMfromNative.ctor E m).bind fun g m1 =>
    (body m1).bind fun _ m2 => ThreadInVMfromNative.dtor E g m2

/-- The block `{ ThreadToNativeFromVM ttnfv(thread); body }`. -/
def ThreadToNativeFromVM.scope (E : Collaborators) (body : Machine → Result Unit)
    (m : Machine) : Result Unit :=
  (ThreadToNativeFromVM.ctor E m).bind fun g m1 =>
    (body m1).bind fun _ m2 => ThreadToNativeFromVM.dtor E g m2

/-- The block `{ ThreadBlockInVM tbivm(thread, allow_suspend); body }`. -/
def ThreadBlockInVM.scope (E : Collaborators) (allow_suspend : Bool)
    (body : Machine → Result Unit) (m : Machine) : Result Unit :=
  (ThreadBlockInVM.ctor E m allow_suspend).bind fun g m1 =>
    (body m1).bind fun _ m2 => ThreadBlockInVMPreprocess.dtor E g m2

/-- A block that does nothing. -/
def empty_body (m : Machine) : Result Unit := Result.ok () m

/-! ## Leaf boundaries -/

/-- Modelled from the spec: `NoSafepointVerifier` is declared outside this file; the
spec (section 4.4) calls it the debug-only no-safepoint verifier. Its constructor
counts one more live verifier on the current thread. -/
def Machine.NoSafepointVerifier_ctor (m : Machine) : Machine :=
  { m with thread := { m.thread with no_safepoint_count := m.thread.no_safepoint_count + 1 } }

/-- Modelled from the spec: the destructor of `NoSafepointVerifier` counts one live
verifier less. -/
def Machine.NoSafepointVerifier_dtor (m : Machine) : Machine :=
  { m with thread := { m.thread with no_safepoint_count := m.thread.no_safepoint_count - 1 } }

/-- The macro `VM_LEAF_BASE(result_type, header)` followed by the body up to the
closing brace. `NoHandleMark __hm` concerns handle marks only and is left out;
`os::verify_stack_alignment()` is defined outside this file and `stack_aligned` is
the outcome of its check. -/
def VM_LEAF_BASE (stack_aligned : Bool) (body : Machine → Result Unit) (m : Machine) :
    Result Unit :=
  vmassert (stack_aligned = true) Assertion.incorrect_stack_alignment m <|
  body m

/-- The macro `JRT_LEAF(result_type, header)` up to `JRT_END`: `VM_LEAF_BASE`, then
`NoSafepointVerifier __nsv`, whose destructor runs when the body is left. -/
def JRT_LEAF (stack_aligned : Bool) (body : Machine → Result Unit) (m : Machine) :
    Result Unit :=
  VM_LEAF_BASE stack_aligned
    (fun m1 => (body m1.NoSafepointVerifier_ctor).bind fun _ m2 =>
      Result.ok () m2.NoSafepointVerifier_dtor) m

/-- The macro `JNI_LEAF(result_type, header)` up to `JNI_END`;
`env_of_current_thread` says whether `thread_from_jni_environment(env)` is the
current thread. -/
def JNI_LEAF (env_of_current_thread stack_aligned : Bool) (body : Machine → Result Unit)
    (m : Machine) : Result Unit :=
  vmassert (env_of_current_thread = true) Assertion.JNIEnv_is_only_valid_in_same_thread m <|
  VM_LEAF_BASE stack_aligned body m

/-- The macro `JVM_LEAF(result_type, header)` up to `JVM_END`;
`VM_Exit::block_if_vm_exited()` is defined outside this file and is taken to return
(the VM has not exited). -/
def JVM_LEAF (stack_aligned : Bool) (body : Machine → Result Unit) (m : Machine) :
    Result Unit :=
  VM_LEAF_BASE stack_aligned body m

/-! ## Reading the trace -/

/-- The effects that running `r` from `m` added to the trace. -/
def emitted {α : Type} (m : Machine) (r : Result α) : List Event :=
  r.machine.trace.drop m.trace.length

/-- Whether the event is a call of the pause coordinator. -/
def Event.is_poll : Event → Bool
  | Event.process_if_requested_with_exit_check _ _ => true
  | Event.should_process _ _ => true
  | Event.process_if_requested _ _ _ => true
  | _ => false

/-- The async-exception check argument of a pause-coordinator call that takes one. -/
def Event.poll_check : Event → Option Bool
  | Event.process_if_requested_with_exit_check _ c => some c
  | Event.process_if_requested _ _ c => some c
  | _ => none

/-- The state an event writes, if it is a state write (plain or fenced). -/
def Event.state_write : Event → Option JavaThreadState
  | Event.set_thread_state s => some s
  | Event.set_thread_state_fence s => some s
  | _ => none

/-- The destination of the first state write of a trace. -/
def next_state_write : List Event → Option JavaThreadState
  | [] => none
  | e :: es =>
    match e.state_write with
    | some s => some s
    | none => next_state_write es

/-- Every pause-coordinator call of the trace that has the async-exception check
enabled is followed by a state write, and the first write after it is to
`_thread_in_Java`. -/
def checked_polls_resume_Java : List Event → Bool
  | [] => true
  | e :: es =>
    (if e.poll_check = some true then
      decide (next_state_write es = some _thread_in_Java) else true) &&
    checked_polls_resume_Java es

/-- The thread state in which a pause-coordinator call or the call-back is made. -/
def Event.at_state : Event → Option JavaThreadState
  | Event.process_if_requested_with_exit_check s _ => some s
  | Event.should_process s _ => some s
  | Event.pre_proc s => some s
  | Event.process_if_requested s _ _ => some s
  | _ => none

/-- The destinations of the state writes of a trace, in order. -/
def state_writes (tr : List Event) : List JavaThreadState :=
  tr.filterMap Event.state_write

/-- Drop every state that repeats the one before it. -/
def collapse : List JavaThreadState → List JavaThreadState
  | a :: b :: rest => if a = b then collapse (b :: rest) else a :: collapse (b :: rest)
  | l => l

/-- The states a thread goes through when it starts in `start` and performs the
state writes of the trace. -/
def visited (start : JavaThreadState) (tr : List Event) : List JavaThreadState :=
  collapse (start :: state_writes tr)

/-- Every pause-coordinator call of the trace comes when the last state write before
it, if there is one among `last` and the trace, was to `_thread_in_vm`. -/
def polls_follow_vm_writes : Option JavaThreadState → List Event → Bool
  | _, [] => true
  | last, e :: es =>
    (if e.is_poll = true then
      decide (last = none ∨ last = some _thread_in_vm) else true) &&
    polls_follow_vm_writes
      (match e.state_write with
        | some s => some s
        | none => last) es

/-- The machine after `transition_from_native(thread, _thread_in_vm)` has written
the state, called the pause coordinator and written the state again. -/
def Machine.entered_vm_from_native (E : Collaborators) (m : Machine) : Machine :=
  ((if E.UseSystemMemoryBarrier = false then m.set_thread_state_fence _thread_in_vm
    else m.set_thread_state _thread_in_vm).process_if_requested_with_exit_check E
      false).set_thread_state _thread_in_vm

/-- The fields of a thread that the assertions of the file read are the same in `t`
and `t2`: state, locks held, live no-safepoint verifiers, pending JNI exception
check. -/
def JavaThread.same_checked_fields (t t2 : JavaThread) : Prop :=
  t2.thread_state = t.thread_state ∧ t2.owned_locks = t.owned_locks ∧
  t2.no_safepoint_count = t.no_safepoint_count ∧
  t2.pending_jni_exception_check = t.pending_jni_exception_check

/-- Contract of a pause coordinator: each call returns with the fields that the
assertions of the file read as they were. -/
def Collaborators.keeps_checked_fields (E : Collaborators) : Prop :=
  (∀ (t : JavaThread) (c : Bool),
    t.same_checked_fields (E.process_if_requested_with_exit_check t c)) ∧
  (∀ (t : JavaThread) (a c : Bool),
    t.same_checked_fields (E.process_if_requested t a c))

/-- The machine `m2` is reached from `m` by effects whose state writes are `ws`, it is
in state `s`, and the other fields that the assertions of the file read are as in
`m`. -/
def Machine.steps_to (m m2 : Machine) (s : JavaThreadState) (ws : List JavaThreadState) :
    Prop :=
  m2.thread.thread_state = s ∧ m2.thread.owned_locks = m.thread.owned_locks ∧
  m2.thread.no_safepoint_count = m.thread.no_safepoint_count ∧
  m2.thread.pending_jni_exception_check = m.thread.pending_jni_exception_check ∧
  ∃ tr, m2.trace = m.trace ++ tr ∧ state_writes tr = ws

/-! ## Concrete inputs -/

/-- A pause coordinator used for concrete runs: it cooperates when a handshake is
requested, or a suspension is requested and allowed; cooperating clears the
request, and delivers a pending asynchronous exception when asked to check. -/
def sampleCollaborators : Collaborators :=
  { UseSystemMemoryBarrier := false
    process_if_requested_with_exit_check := fun t c =>
      { t with
        handshake_requested := false
        suspend_requested := false
        pending_async_exception := if c then false else t.pending_async_exception }
    should_process := fun t allow => t.handshake_requested || (allow && t.suspend_requested)
    process_if_requested := fun t allow c =>
      if t.handshake_requested || (allow && t.suspend_requested) then
        { t with
          handshake_requested := false
          suspend_requested := if allow then false else t.suspend_requested
          pending_async_exception := if c then false else t.pending_async_exception }
      else t
    enable_stack_yellow_reserved_zone := fun _ =>
      { stack_yellow_reserved_zone_disabled := false } }

/-- A thread in state `s` with a last Java frame that is not walkable, holding
`locks` locks, with `nsv` live no-safepoint verifiers, and nothing pending. -/
def sampleThread (s : JavaThreadState) (locks nsv : Nat) : JavaThread :=
  { thread_state := s
    frame_anchor := { has_last_Java_frame := true, walkable := false }
    owned_locks := locks
    no_safepoint_count := nsv
    pending_jni_exception_check := false
    stack_overflow_state := { stack_yellow_reserved_zone_disabled := false }
    pending_async_exception := false
    suspend_requested := false
    handshake_requested := false }

/-- The machine of `sampleThread` before any effect. -/
def sampleMachine (s : JavaThreadState) (locks nsv : Nat) : Machine :=
  { thread := sampleThread s locks nsv, trace := [] }

/-- As `sampleMachine`, with the last Java frame walkable. -/
def walkableMachine (s : JavaThreadState) (locks nsv : Nat) : Machine :=
  { thread := { sampleThread s locks nsv with
      frame_anchor := { has_last_Java_frame := true, walkable := true } },
    trace := [] }

/-- As `sampleCollaborators`, with `UseSystemMemoryBarrier` switched on. -/
def barrierCollaborators : Collaborators :=
  { sampleCollaborators with UseSystemMemoryBarrier := true }

/-- A call-back that writes the thread state. -/
def stateWritingOp (current : JavaThread) : JavaThread :=
  { current with thread_state := _thread_in_Java }

/-- A thread in `_thread_blocked` for which a handshake is requested. -/
def handshakeMachine : Machine :=
  { thread := { sampleThread _thread_blocked 0 0 with handshake_requested := true },
    trace := [] }

/-! ## Inversion lemmas -/

/-- When `transition_from_java` completes, and with which machine. -/
theorem transition_from_java_ok_iff (m m1 : Machine) (to_state : JavaThreadState) (u : Unit) :
    transition_from_java m to_state = Result.ok u m1 ↔
      m.thread.thread_state = _thread_in_Java ∧
      (to_state = _thread_in_vm ∨ to_state = _thread_in_native) ∧
      m.set_thread_state to_state = m1 := by
  unfold transition_from_java vmassert
  by_cases h1 : m.thread.thread_state = _thread_in_Java <;>
  by_cases h2 : (to_state = _thread_in_vm ∨ to_state = _thread_in_native) <;>
  simp [h1, h2]

/-- When `transition_from_native` completes, and with which machine. -/
theorem transition_from_native_ok_iff (E : Collaborators) (m m1 : Machine)
    (to_state : JavaThreadState) (c : Bool) (u : Unit) :
    transition_from_native E m to_state c = Result.ok u m1 ↔
      m.thread.thread_state = _thread_in_native ∧
      (to_state = _thread_in_vm ∨ to_state = _thread_in_Java) ∧
      (m.thread.has_last_Java_frame = false ∨ m.thread.frame_anchor.walkable = true) ∧
      (((if E.UseSystemMemoryBarrier = false then m.set_thread_state_fence _thread_in_vm
              else m.set_thread_state _thread_in_vm).process_if_requested_with_exit_check E
              (if to_state ≠ _thread_in_Java then false else c)).set_thread_state to_state)
        = m1 := by
  unfold transition_from_native vmassert
  by_cases h1 : m.thread.thread_state = _thread_in_native <;>
  by_cases h2 : (to_state = _thread_in_vm ∨ to_state = _thread_in_Java) <;>
  by_cases h3 : (m.thread.has_last_Java_frame = false ∨ m.thread.frame_anchor.walkable = true) <;>
  simp [h1, h2, h3]

/-- When `transition_from_vm` completes, and with which machine. -/
theorem transition_from_vm_ok_iff (E : Collaborators) (m m1 : Machine)
    (to_state : JavaThreadState) (c : Bool) (u : Unit) :
    transition_from_vm E m to_state c = Result.ok u m1 ↔
      m.thread.thread_state = _thread_in_vm ∧
      ((to_state = _thread_in_Java ∧
          (m.process_if_requested_with_exit_check E c).set_thread_state to_state = m1) ∨
       ((to_state = _thread_in_native ∨ to_state = _thread_blocked) ∧
          m.thread.no_safepoint_count = 0 ∧
          m.make_walkable.storestore.set_thread_state to_state = m1)) := by
  unfold transition_from_vm vmassert Machine.check_possible_safepoint vmassert
  by_cases h1 : m.thread.thread_state = _thread_in_vm <;>
  by_cases h3 : m.thread.no_safepoint_count = 0 <;>
  cases to_state <;>
  simp [h1, h3]

/-- A sequence completes exactly when both of its parts do. -/
theorem Result.bind_ok_iff {α β : Type} (r : Result α) (k : α → Machine → Result β)
    (b : β) (m2 : Machine) :
    r.bind k = Result.ok b m2 ↔ ∃ a m1, r = Result.ok a m1 ∧ k a m1 = Result.ok b m2 := by
  cases r with
  | ok a m =>
    constructor
    · intro h
      exact ⟨a, m, rfl, h⟩
    · rintro ⟨a1, m1, h1, h⟩
      cases h1
      exact h
  | fatal a m => simp [Result.bind]

/-! ## Trace lemmas -/

/-- Checked pause-coordinator calls in the effects of `transition_from_java` are followed
by the write of `_thread_in_Java`. -/
theorem checked_polls_transition_from_java (m : Machine) (s : JavaThreadState) :
    checked_polls_resume_Java (emitted m (transition_from_java m s)) = true := by
  simp only [ThreadInVMfromJava.ctor, ThreadInVMfromJava.dtor, ThreadInVMfromUnknown.ctor,
    ThreadInVMfromUnknown.dtor, ThreadInVMfromNative.ctor, ThreadInVMfromNative.dtor,
    ThreadToNativeFromVM.ctor, ThreadToNativeFromVM.dtor, ThreadBlockInVMPreprocess.ctor,
    ThreadBlockInVM.ctor, ThreadBlockInVMPreprocess.dtor, transition_from_java,
    transition_from_native, transition_from_vm, vmassert, Machine.check_possible_safepoint]
  split_ifs <;>
  simp_all [Result.bind, emitted, Result.machine, Machine.set_thread_state,
    Machine.set_thread_state_fence, Machine.storestore, Machine.make_walkable,
    Machine.process_if_requested_with_exit_check, Machine.process_if_requested,
    Machine.pre_proc, Machine.should_process, Machine.enable_stack_yellow_reserved_zone,
    checked_polls_resume_Java, next_state_write, Event.poll_check, Event.state_write,
    Event.is_poll]

/-- Checked pause-coordinator calls in the effects of `transition_from_native` are followed
by the write of `_thread_in_Java`. -/
theorem checked_polls_transition_from_native (E : Collaborators) (m : Machine)
    (s : JavaThreadState) (b : Bool) :
    checked_polls_resume_Java (emitted m (transition_from_native E m s b)) = true := by
  simp only [ThreadInVMfromJava.ctor, ThreadInVMfromJava.dtor, ThreadInVMfromUnknown.ctor,
    ThreadInVMfromUnknown.dtor, ThreadInVMfromNative.ctor, ThreadInVMfromNative.dtor,
    ThreadToNativeFromVM.ctor, ThreadToNativeFromVM.dtor, ThreadBlockInVMPreprocess.ctor,
    ThreadBlockInVM.ctor, ThreadBlockInVMPreprocess.dtor, transition_from_java,
    transition_from_native, transition_from_vm, vmassert, Machine.check_possible_safepoint]
  split_ifs <;>
  simp_all [Result.bind, emitted, Result.machine, Machine.set_thread_state,
    Machine.set_thread_state_fence, Machine.storestore, Machine.make_walkable,
    Machine.process_if_requested_with_exit_check, Machine.process_if_requested,
    Machine.pre_proc, Machine.should_process, Machine.enable_stack_yellow_reserved_zone,
    checked_polls_resume_Java, next_state_write, Event.poll_check, Event.state_write,
    Event.is_poll]

/-- Checked pause-coordinator calls in the effects of `transition_from_vm` are followed
by the write of `_thread_in_Java`. -/
theorem checked_polls_transition_from_vm (E : Collaborators) (m : Machine) (s : JavaThreadState)
    (b : Bool) :
    checked_polls_resume_Java (emitted m (transition_from_vm E m s b)) = true := by
  simp only [ThreadInVMfromJava.ctor, ThreadInVMfromJava.dtor, ThreadInVMfromUnknown.ctor,
    ThreadInVMfromUnknown.dtor, ThreadInVMfromNative.ctor, ThreadInVMfromNative.dtor,
    ThreadToNativeFromVM.ctor, ThreadToNativeFromVM.dtor, ThreadBlockInVMPreprocess.ctor,
    ThreadBlockInVM.ctor, ThreadBlockInVMPreprocess.dtor, transition_from_java,
    transition_from_native, transition_from_vm, vmassert, Machine.check_possible_safepoint]
  split_ifs <;>
  simp_all [Result.bind, emitted, Result.machine, Machine.set_thread_state,
    Machine.set_thread_state_fence, Machine.storestore, Machine.make_walkable,
    Machine.process_if_requested_with_exit_check, Machine.process_if_requested,
    Machine.pre_proc, Machine.should_process, Machine.enable_stack_yellow_reserved_zone,
    checked_polls_resume_Java, next_state_write, Event.poll_check, Event.state_write,
    Event.is_poll]

/-- Checked pause-coordinator calls in the effects of `ThreadInVMfromJava.ctor` are followed
by the write of `_thread_in_Java`. -/
theorem checked_polls_ThreadInVMfromJava_ctor (m : Machine) (b : Bool) :
    checked_polls_resume_Java (emitted m (ThreadInVMfromJava.ctor m b)) = true := by
  simp only [ThreadInVMfromJava.ctor, ThreadInVMfromJava.dtor, ThreadInVMfromUnknown.ctor,
    ThreadInVMfromUnknown.dtor, ThreadInVMfromNative.ctor, ThreadInVMfromNative.dtor,
    ThreadToNativeFromVM.ctor, ThreadToNativeFromVM.dtor, ThreadBlockInVMPreprocess.ctor,
    ThreadBlockInVM.ctor, ThreadBlockInVMPreprocess.dtor, transition_from_java,
    transition_from_native, transition_from_vm, vmassert, Machine.check_possible_safepoint]
  split_ifs <;>
  simp_all [Result.bind, emitted, Result.machine, Machine.set_thread_state,
    Machine.set_thread_state_fence, Machine.storestore, Machine.make_walkable,
    Machine.process_if_requested_with_exit_check, Machine.process_if_requested,
    Machine.pre_proc, Machine.should_process, Machine.enable_stack_yellow_reserved_zone,
    checked_polls_resume_Java, next_state_write, Event.poll_check, Event.state_write,
    Event.is_poll]

/-- Checked pause-coordinator calls in the effects of `ThreadInVMfromJava.dtor` are followed
by the write of `_thread_in_Java`. -/
theorem checked_polls_ThreadInVMfromJava_dtor (E : Collaborators) (g : ThreadInVMfromJava)
    (m : Machine) :
    checked_polls_resume_Java (emitted m (ThreadInVMfromJava.dtor E g m)) = true := by
  simp only [ThreadInVMfromJava.ctor, ThreadInVMfromJava.dtor, ThreadInVMfromUnknown.ctor,
    ThreadInVMfromUnknown.dtor, ThreadInVMfromNative.ctor, ThreadInVMfromNative.dtor,
    ThreadToNativeFromVM.ctor, ThreadToNativeFromVM.dtor, ThreadBlockInVMPreprocess.ctor,
    ThreadBlockInVM.ctor, ThreadBlockInVMPreprocess.dtor, transition_from_java,
    transition_from_native, transition_from_vm, vmassert, Machine.check_possible_safepoint]
  split_ifs <;>
  simp_all [Result.bind, emitted, Result.machine, Machine.set_thread_state,
    Machine.set_thread_state_fence, Machine.storestore, Machine.make_walkable,
    Machine.process_if_requested_with_exit_check, Machine.process_if_requested,
    Machine.pre_proc, Machine.should_process, Machine.enable_stack_yellow_reserved_zone,
    checked_polls_resume_Java, next_state_write, Event.poll_check, Event.state_write,
    Event.is_poll]

/-- Checked pause-coordinator calls in the effects of `ThreadInVMfromUnknown.ctor` are followed
by the write of `_thread_in_Java`. -/
theorem checked_polls_ThreadInVMfromUnknown_ctor (E : Collaborators) (j : Bool) (m : Machine) :
    checked_polls_resume_Java (emitted m (ThreadInVMfromUnknown.ctor E j m)) = true := by
  simp only [ThreadInVMfromJava.ctor, ThreadInVMfromJava.dtor, ThreadInVMfromUnknown.ctor,
    ThreadInVMfromUnknown.dtor, ThreadInVMfromNative.ctor, ThreadInVMfromNative.dtor,
    ThreadToNativeFromVM.ctor, ThreadToNativeFromVM.dtor, ThreadBlockInVMPreprocess.ctor,
    ThreadBlockInVM.ctor, ThreadBlockInVMPreprocess.dtor, transition_from_java,
    transition_from_native, transition_from_vm, vmassert, Machine.check_possible_safepoint]
  split_ifs <;>
  simp_all [Result.bind, emitted, Result.machine, Machine.set_thread_state,
    Machine.set_thread_state_fence, Machine.storestore, Machine.make_walkable,
    Machine.process_if_requested_with_exit_check, Machine.process_if_requested,
    Machine.pre_proc, Machine.should_process, Machine.enable_stack_yellow_reserved_zone,
    checked_polls_resume_Java, next_state_write, Event.poll_check, Event.state_write,
    Event.is_poll]

/-- Checked pause-coordinator calls in the effects of `ThreadInVMfromUnknown.dtor` are followed
by the write of `_thread_in_Java`. -/
theorem checked_polls_ThreadInVMfromUnknown_dtor (E : Collaborators) (g : ThreadInVMfromUnknown)
    (m : Machine) :
    checked_polls_resume_Java (emitted m (ThreadInVMfromUnknown.dtor E g m)) = true := by
  simp only [ThreadInVMfromJava.ctor, ThreadInVMfromJava.dtor, ThreadInVMfromUnknown.ctor,
    ThreadInVMfromUnknown.dtor, ThreadInVMfromNative.ctor, ThreadInVMfromNative.dtor,
    ThreadToNativeFromVM.ctor, ThreadToNativeFromVM.dtor, ThreadBlockInVMPreprocess.ctor,
    ThreadBlockInVM.ctor, ThreadBlockInVMPreprocess.dtor, transition_from_java,
    transition_from_native, transition_from_vm, vmassert, Machine.check_possible_safepoint]
  split_ifs <;>
  simp_all [Result.bind, emitted, Result.machine, Machine.set_thread_state,
    Machine.set_thread_state_fence, Machine.storestore, Machine.make_walkable,
    Machine.process_if_requested_with_exit_check, Machine.process_if_requested,
    Machine.pre_proc, Machine.should_process, Machine.enable_stack_yellow_reserved_zone,
    checked_polls_resume_Java, next_state_write, Event.poll_check, Event.state_write,
    Event.is_poll]

/-- Checked pause-coordinator calls in the effects of `ThreadInVMfromNative.ctor` are followed
by the write of `_thread_in_Java`. -/
theorem checked_polls_ThreadInVMfromNative_ctor (E : Collaborators) (m : Machine) :
    checked_polls_resume_Java (emitted m (ThreadInVMfromNative.ctor E m)) = true := by
  simp only [ThreadInVMfromJava.ctor, ThreadInVMfromJava.dtor, ThreadInVMfromUnknown.ctor,
    ThreadInVMfromUnknown.dtor, ThreadInVMfromNative.ctor, ThreadInVMfromNative.dtor,
    ThreadToNativeFromVM.ctor, ThreadToNativeFromVM.dtor, ThreadBlockInVMPreprocess.ctor,
    ThreadBlockInVM.ctor, ThreadBlockInVMPreprocess.dtor, transition_from_java,
    transition_from_native, transition_from_vm, vmassert, Machine.check_possible_safepoint]
  split_ifs <;>
  simp_all [Result.bind, emitted, Result.machine, Machine.set_thread_state,
    Machine.set_thread_state_fence, Machine.storestore, Machine.make_walkable,
    Machine.process_if_requested_with_exit_check, Machine.process_if_requested,
    Machine.pre_proc, Machine.should_process, Machine.enable_stack_yellow_reserved_zone,
    checked_polls_resume_Java, next_state_write, Event.poll_check, Event.state_write,
    Event.is_poll]

/-- Checked pause-coordinator calls in the effects of `ThreadInVMfromNative.dtor` are followed
by the write of `_thread_in_Java`. -/
theorem checked_polls_ThreadInVMfromNative_dtor (E : Collaborators) (g : ThreadInVMfromNative)
    (m : Machine) :
    checked_polls_resume_Java (emitted m (ThreadInVMfromNative.dtor E g m)) = true := by
  simp only [ThreadInVMfromJava.ctor, ThreadInVMfromJava.dtor, ThreadInVMfromUnknown.ctor,
    ThreadInVMfromUnknown.dtor, ThreadInVMfromNative.ctor, ThreadInVMfromNative.dtor,
    ThreadToNativeFromVM.ctor, ThreadToNativeFromVM.dtor, ThreadBlockInVMPreprocess.ctor,
    ThreadBlockInVM.ctor, ThreadBlockInVMPreprocess.dtor, transition_from_java,
    transition_from_native, transition_from_vm, vmassert, Machine.check_possible_safepoint]
  split_ifs <;>
  simp_all [Result.bind, emitted, Result.machine, Machine.set_thread_state,
    Machine.set_thread_state_fence, Machine.storestore, Machine.make_walkable,
    Machine.process_if_requested_with_exit_check, Machine.process_if_requested,
    Machine.pre_proc, Machine.should_process, Machine.enable_stack_yellow_reserved_zone,
    checked_polls_resume_Java, next_state_write, Event.poll_check, Event.state_write,
    Event.is_poll]

/-- Checked pause-coordinator calls in the effects of `ThreadToNativeFromVM.ctor` are followed
by the write of `_thread_in_Java`. -/
theorem checked_polls_ThreadToNativeFromVM_ctor (E : Collaborators) (m : Machine) :
    checked_polls_resume_Java (emitted m (ThreadToNativeFromVM.ctor E m)) = true := by
  simp only [ThreadInVMfromJava.ctor, ThreadInVMfromJava.dtor, ThreadInVMfromUnknown.ctor,
    ThreadInVMfromUnknown.dtor, ThreadInVMfromNative.ctor, ThreadInVMfromNative.dtor,
    ThreadToNativeFromVM.ctor, ThreadToNativeFromVM.dtor, ThreadBlockInVMPreprocess.ctor,
    ThreadBlockInVM.ctor, ThreadBlockInVMPreprocess.dtor, transition_from_java,
    transition_from_native, transition_from_vm, vmassert, Machine.check_possible_safepoint]
  split_ifs <;>
  simp_all [Result.bind, emitted, Result.machine, Machine.set_thread_state,
    Machine.set_thread_state_fence, Machine.storestore, Machine.make_walkable,
    Machine.process_if_requested_with_exit_check, Machine.process_if_requested,
    Machine.pre_proc, Machine.should_process, Machine.enable_stack_yellow_reserved_zone,
    checked_polls_resume_Java, next_state_write, Event.poll_check, Event.state_write,
    Event.is_poll]

/-- Checked pause-coordinator calls in the effects of `ThreadToNativeFromVM.dtor` are followed
by the write of `_thread_in_Java`. -/
theorem checked_polls_ThreadToNativeFromVM_dtor (E : Collaborators) (g : ThreadToNativeFromVM)
    (m : Machine) :
    checked_polls_resume_Java (emitted m (ThreadToNativeFromVM.dtor E g m)) = true := by
  have hm : (ThreadToNativeFromVM.dtor E g m).machine
      = (transition_from_native E m _thread_in_vm true).machine := by
    unfold ThreadToNativeFromVM.dtor
    cases transition_from_native E m _thread_in_vm true with
    | ok u m1 =>
      simp only [Result.bind, vmassert]
      split <;> rfl
    | fatal a m1 => rfl
  have h := checked_polls_transition_from_native E m _thread_in_vm true
  unfold emitted at h ⊢
  rw [hm]
  exact h

/-- Checked pause-coordinator calls in the effects of `ThreadBlockInVMPreprocess.ctor` are followed
by the write of `_thread_in_Java`. -/
theorem checked_polls_ThreadBlockInVMPreprocess_ctor (E : Collaborators) (m : Machine)
    (pr : JavaThread → JavaThread) (a : Bool) :
    checked_polls_resume_Java (emitted m (ThreadBlockInVMPreprocess.ctor E m pr a)) = true := by
  simp only [ThreadInVMfromJava.ctor, ThreadInVMfromJava.dtor, ThreadInVMfromUnknown.ctor,
    ThreadInVMfromUnknown.dtor, ThreadInVMfromNative.ctor, ThreadInVMfromNative.dtor,
    ThreadToNativeFromVM.ctor, ThreadToNativeFromVM.dtor, ThreadBlockInVMPreprocess.ctor,
    ThreadBlockInVM.ctor, ThreadBlockInVMPreprocess.dtor, transition_from_java,
    transition_from_native, transition_from_vm, vmassert, Machine.check_possible_safepoint]
  split_ifs <;>
  simp_all [Result.bind, emitted, Result.machine, Machine.set_thread_state,
    Machine.set_thread_state_fence, Machine.storestore, Machine.make_walkable,
    Machine.process_if_requested_with_exit_check, Machine.process_if_requested,
    Machine.pre_proc, Machine.should_process, Machine.enable_stack_yellow_reserved_zone,
    checked_polls_resume_Java, next_state_write, Event.poll_check, Event.state_write,
    Event.is_poll]

/-- Checked pause-coordinator calls in the effects of `ThreadBlockInVMPreprocess.dtor` are followed
by the write of `_thread_in_Java`. -/
theorem checked_polls_ThreadBlockInVMPreprocess_dtor (E : Collaborators)
    (g : ThreadBlockInVMPreprocess) (m : Machine) :
    checked_polls_resume_Java (emitted m (ThreadBlockInVMPreprocess.dtor E g m)) = true := by
  simp only [ThreadInVMfromJava.ctor, ThreadInVMfromJava.dtor, ThreadInVMfromUnknown.ctor,
    ThreadInVMfromUnknown.dtor, ThreadInVMfromNative.ctor, ThreadInVMfromNative.dtor,
    ThreadToNativeFromVM.ctor, ThreadToNativeFromVM.dtor, ThreadBlockInVMPreprocess.ctor,
    ThreadBlockInVM.ctor, ThreadBlockInVMPreprocess.dtor, transition_from_java,
    transition_from_native, transition_from_vm, vmassert, Machine.check_possible_safepoint]
  split_ifs <;>
  simp_all [Result.bind, emitted, Result.machine, Machine.set_thread_state,
    Machine.set_thread_state_fence, Machine.storestore, Machine.make_walkable,
    Machine.process_if_requested_with_exit_check, Machine.process_if_requested,
    Machine.pre_proc, Machine.should_process, Machine.enable_stack_yellow_reserved_zone,
    checked_polls_resume_Java, next_state_write, Event.poll_check, Event.state_write,
    Event.is_poll]

/-! ## The transition engine on the edges of the table -/

/-- C1, as stated, fails: a thread in `_thread_in_native` (the only precondition the
table lists for the edge to `_thread_in_vm`) whose last Java frame is not walkable
makes `transition_from_native` fail its third assertion, and a thread in
`_thread_in_vm` holding no lock but inside a no-safepoint verifier makes
`transition_from_vm` to `_thread_in_native` and to `_thread_blocked` fail. -/
theorem table_precondition_not_sufficient :
    (sampleMachine _thread_in_native 0 0).thread.thread_state = _thread_in_native ∧
    transition_from_native sampleCollaborators (sampleMachine _thread_in_native 0 0)
        _thread_in_vm true
      = Result.fatal Assertion.unwalkable_stack_in_native_transition
          (sampleMachine _thread_in_native 0 0) ∧
    (sampleMachine _thread_in_vm 0 1).thread.thread_state = _thread_in_vm ∧
    (sampleMachine _thread_in_vm 0 1).thread.owns_locks = false ∧
    transition_from_vm sampleCollaborators (sampleMachine _thread_in_vm 0 1)
        _thread_in_native true
      = Result.fatal Assertion.possible_safepoint_reached (sampleMachine _thread_in_vm 0 1) ∧
    transition_from_vm sampleCollaborators (sampleMachine _thread_in_vm 0 1)
        _thread_blocked true
      = Result.fatal Assertion.possible_safepoint_reached (sampleMachine _thread_in_vm 0 1) := by
  decide

/-- C1 (amended): on each edge of the table the engine completes and leaves the
thread in the destination state, for every pause coordinator and every value of
`check_asyncs`, when the table precondition holds and, in addition, no no-safepoint
verifier is outstanding (edges from `_thread_in_vm` to `_thread_in_native` and
`_thread_blocked`) or the stack is walkable or there is no last Java frame (edge
from `_thread_in_native`). -/
theorem legal_edges_reach_destination (E : Collaborators) (m : Machine) (c : Bool) :
    (m.thread.thread_state = _thread_in_Java →
      ∃ m1, transition_from_java m _thread_in_vm = Result.ok () m1 ∧
        m1.thread.thread_state = _thread_in_vm) ∧
    (m.thread.thread_state = _thread_in_vm →
      ∃ m1, transition_from_vm E m _thread_in_Java c = Result.ok () m1 ∧
        m1.thread.thread_state = _thread_in_Java) ∧
    (m.thread.thread_state = _thread_in_vm → m.thread.owns_locks = false →
      m.thread.no_safepoint_count = 0 →
      ∃ m1, transition_from_vm E m _thread_in_native c = Result.ok () m1 ∧
        m1.thread.thread_state = _thread_in_native) ∧
    (m.thread.thread_state = _thread_in_vm → m.thread.no_safepoint_count = 0 →
      ∃ m1, transition_from_vm E m _thread_blocked c = Result.ok () m1 ∧
        m1.thread.thread_state = _thread_blocked) ∧
    (m.thread.thread_state = _thread_in_native →
      (m.thread.has_last_Java_frame = false ∨ m.thread.frame_anchor.walkable = true) →
      ∃ m1, transition_from_native E m _thread_in_vm c = Result.ok () m1 ∧
        m1.thread.thread_state = _thread_in_vm) := by
  refine ⟨?_, ?_, ?_, ?_, ?_⟩
  · intro h
    simp [transition_from_java, vmassert, h, Machine.set_thread_state]
  · intro h
    simp [transition_from_vm, vmassert, h, Machine.set_thread_state]
  · intro h _ hn
    simp [transition_from_vm, vmassert, h, hn, Machine.check_possible_safepoint,
      Machine.set_thread_state]
  · intro h hn
    simp [transition_from_vm, vmassert, h, hn, Machine.check_possible_safepoint,
      Machine.set_thread_state]
  · intro h hw
    simp [transition_from_native, vmassert, h, hw, Machine.set_thread_state]

/-- Witness of `legal_edges_reach_destination`: the edge from `_thread_in_native`
on a thread whose stack is walkable. -/
theorem legal_edges_reach_destination_witness :
    ∃ m1, transition_from_native sampleCollaborators (walkableMachine _thread_in_native 0 0)
        _thread_in_vm true = Result.ok () m1 ∧ m1.thread.thread_state = _thread_in_vm :=
  (legal_edges_reach_destination sampleCollaborators (walkableMachine _thread_in_native 0 0)
    true).2.2.2.2 (by decide) (by decide)

/-- C2, as stated, fails: InManaged to InNative and InNative to InManaged are not
edges of the table, yet `transition_from_java` with destination `_thread_in_native`
and `transition_from_native` with destination `_thread_in_Java` pass their
assertions and write the state. -/
theorem non_edges_accepted_by_the_engine :
    edge_table _thread_in_Java _thread_in_native = false ∧
    transition_from_java (sampleMachine _thread_in_Java 0 0) _thread_in_native
      = Result.ok () ((sampleMachine _thread_in_Java 0 0).set_thread_state _thread_in_native) ∧
    edge_table _thread_in_native _thread_in_Java = false ∧
    (transition_from_native sampleCollaborators (walkableMachine _thread_in_native 0 0)
      _thread_in_Java true).isOk = true ∧
    (transition_from_native sampleCollaborators (walkableMachine _thread_in_native 0 0)
      _thread_in_Java true).machine.thread.thread_state = _thread_in_Java := by
  decide

/-- C2 (amended): for every pair (from, to) that is neither an edge of the table
nor one of the two further pairs the assertions accept (`_thread_in_Java` to
`_thread_in_native`, `_thread_in_native` to `_thread_in_Java`), each of the three
engine functions called on a thread in state `from` with destination `to` ends in a
failed assertion with the machine exactly as it was: nothing is written. -/
theorem non_edges_are_fatal (E : Collaborators) (m : Machine) (to_state : JavaThreadState)
    (c : Bool)
    (hedge : edge_table m.thread.thread_state to_state = false)
    (hJN : ¬ (m.thread.thread_state = _thread_in_Java ∧ to_state = _thread_in_native))
    (hNJ : ¬ (m.thread.thread_state = _thread_in_native ∧ to_state = _thread_in_Java)) :
    (∃ a, transition_from_java m to_state = Result.fatal a m) ∧
    (∃ a, transition_from_native E m to_state c = Result.fatal a m) ∧
    (∃ a, transition_from_vm E m to_state c = Result.fatal a m) := by
  obtain ⟨t, tr⟩ := m
  obtain ⟨s, fa, ol, nsc, pj, so, pa, sr, hr⟩ := t
  cases s <;> cases to_state <;>
    simp_all [edge_table, transition_from_java, transition_from_native, transition_from_vm,
      vmassert]

/-- Witness of `non_edges_are_fatal`: InRuntime to InRuntime. -/
theorem non_edges_are_fatal_witness :
    (∃ a, transition_from_java (sampleMachine _thread_in_vm 0 0) _thread_in_vm
      = Result.fatal a (sampleMachine _thread_in_vm 0 0)) ∧
    (∃ a, transition_from_native sampleCollaborators (sampleMachine _thread_in_vm 0 0)
      _thread_in_vm true = Result.fatal a (sampleMachine _thread_in_vm 0 0)) ∧
    (∃ a, transition_from_vm sampleCollaborators (sampleMachine _thread_in_vm 0 0)
      _thread_in_vm true = Result.fatal a (sampleMachine _thread_in_vm 0 0)) :=
  non_edges_are_fatal sampleCollaborators (sampleMachine _thread_in_vm 0 0) _thread_in_vm true
    (by decide) (by decide) (by decide)

/-! ## Round trips of the scoped guards -/

/-- C3, as stated, fails: on a thread in `_thread_in_native` with a walkable stack
that is inside a no-safepoint verifier the constructor of `ThreadInVMfromNative`
succeeds, and the destructor, run on the machine exactly as the constructor left
it, fails the check of `check_possible_safepoint()`: the state stays
`_thread_in_vm`. -/
theorem round_trip_fails_under_no_safepoint_verifier :
    (ThreadInVMfromNative.ctor sampleCollaborators (walkableMachine _thread_in_native 0 1)).isOk
      = true ∧
    (ThreadInVMfromNative.dtor sampleCollaborators {}
      (ThreadInVMfromNative.ctor sampleCollaborators
        (walkableMachine _thread_in_native 0 1)).machine).isOk = false ∧
    (ThreadInVMfromNative.dtor sampleCollaborators {}
      (ThreadInVMfromNative.ctor sampleCollaborators
        (walkableMachine _thread_in_native 0 1)).machine).machine.thread.thread_state
      = _thread_in_vm := by
  decide

/-- C3 (amended): for each of the five guards, if the constructor succeeds on `m`
and the destructor runs on a machine `m2` whose state is the one the constructor
set, then the destructor completes and the state is again the one of `m`, provided
the assertions of the destructor hold on `m2` (no no-safepoint verifier outstanding
for `ThreadInVMfromNative` and for a `ThreadInVMfromUnknown` that recorded the
thread; stack walkable or no last Java frame, and no JNI exception check pending,
for `ThreadToNativeFromVM`) and, for the blocking guard, the call-back and the pause
coordinator return with the state unchanged. -/
theorem guard_round_trip (E : Collaborators) (m m2 : Machine) :
    (∀ c g m1, ThreadInVMfromJava.ctor m c = Result.ok g m1 →
      m2.thread.thread_state = m1.thread.thread_state →
      ∃ m3, ThreadInVMfromJava.dtor E g m2 = Result.ok () m3 ∧
        m3.thread.thread_state = m.thread.thread_state) ∧
    (∀ j g m1, ThreadInVMfromUnknown.ctor E j m = Result.ok g m1 →
      m2.thread.thread_state = m1.thread.thread_state →
      (g._thread = true → m2.thread.no_safepoint_count = 0) →
      ∃ m3, ThreadInVMfromUnknown.dtor E g m2 = Result.ok () m3 ∧
        m3.thread.thread_state = m.thread.thread_state) ∧
    (∀ g m1, ThreadInVMfromNative.ctor E m = Result.ok g m1 →
      m2.thread.thread_state = m1.thread.thread_state →
      m2.thread.no_safepoint_count = 0 →
      ∃ m3, ThreadInVMfromNative.dtor E g m2 = Result.ok () m3 ∧
        m3.thread.thread_state = m.thread.thread_state) ∧
    (∀ g m1, ThreadToNativeFromVM.ctor E m = Result.ok g m1 →
      m2.thread.thread_state = m1.thread.thread_state →
      (m2.thread.has_last_Java_frame = false ∨ m2.thread.frame_anchor.walkable = true) →
      m2.thread.is_pending_jni_exception_check = false →
      (∀ t, (E.process_if_requested_with_exit_check t false).is_pending_jni_exception_check
        = t.is_pending_jni_exception_check) →
      ∃ m3, ThreadToNativeFromVM.dtor E g m2 = Result.ok () m3 ∧
        m3.thread.thread_state = m.thread.thread_state) ∧
    (∀ pr a g m1, ThreadBlockInVMPreprocess.ctor E m pr a = Result.ok g m1 →
      m2.thread.thread_state = m1.thread.thread_state →
      (∀ t, (pr t).thread_state = t.thread_state) →
      (∀ t x y, (E.process_if_requested t x y).thread_state = t.thread_state) →
      ∃ m3, ThreadBlockInVMPreprocess.dtor E g m2 = Result.ok () m3 ∧
        m3.thread.thread_state = m.thread.thread_state) := by
  refine ⟨?_, ?_, ?_, ?_, ?_⟩
  · intro c g m1 h hs
    simp only [ThreadInVMfromJava.ctor, Result.bind_ok_iff, transition_from_java_ok_iff] at h
    obtain ⟨_, m', ⟨hst, _, rfl⟩, h⟩ := h
    simp only [Result.ok.injEq] at h
    obtain ⟨rfl, rfl⟩ := h
    simp only [ThreadInVMfromJava.dtor, transition_from_vm_ok_iff]
    refine ⟨_, ⟨?_, Or.inl ⟨trivial, rfl⟩⟩, ?_⟩
    · split <;> simp_all [Machine.set_thread_state, Machine.enable_stack_yellow_reserved_zone]
    · simp [Machine.set_thread_state, hst]
  · intro j g m1 h hs hn
    simp only [ThreadInVMfromUnknown.ctor] at h
    split at h
    · split at h
      · rename_i hnat
        simp only [Result.bind_ok_iff, transition_from_native_ok_iff] at h
        obtain ⟨_, m', ⟨hst, _, _, rfl⟩, h⟩ := h
        simp only [Result.ok.injEq] at h
        obtain ⟨rfl, rfl⟩ := h
        simp only [ThreadInVMfromUnknown.dtor, transition_from_vm_ok_iff, if_true]
        refine ⟨_, ⟨?_, Or.inr ⟨Or.inl trivial, hn rfl, rfl⟩⟩, ?_⟩
        · simpa [Machine.set_thread_state] using hs
        · simp [Machine.set_thread_state, hst]
      · simp only [Result.ok.injEq] at h
        obtain ⟨rfl, rfl⟩ := h
        exact ⟨m2, by simp [ThreadInVMfromUnknown.dtor], hs⟩
    · simp only [Result.ok.injEq] at h
      obtain ⟨rfl, rfl⟩ := h
      exact ⟨m2, by simp [ThreadInVMfromUnknown.dtor], hs⟩
  · intro g m1 h hs hn
    simp only [ThreadInVMfromNative.ctor, Result.bind_ok_iff, transition_from_native_ok_iff] at h
    obtain ⟨_, m', ⟨hst, _, _, rfl⟩, h⟩ := h
    simp only [Result.ok.injEq] at h
    obtain ⟨_, rfl⟩ := h
    simp only [ThreadInVMfromNative.dtor, transition_from_vm_ok_iff]
    refine ⟨_, ⟨?_, Or.inr ⟨Or.inl trivial, hn, rfl⟩⟩, ?_⟩
    · simpa [Machine.set_thread_state] using hs
    · simp [Machine.set_thread_state, hst]
  · intro g m1 h hs hw hj hE
    simp only [ThreadToNativeFromVM.ctor, vmassert] at h
    split at h
    · simp only [Result.bind_ok_iff, transition_from_vm_ok_iff] at h
      obtain ⟨_, m', ⟨hst, hcase⟩, h⟩ := h
      simp only [Result.ok.injEq] at h
      obtain ⟨_, rfl⟩ := h
      have hm2 : m2.thread.thread_state = _thread_in_native := by
        rcases hcase with ⟨h1, _⟩ | ⟨_, _, rfl⟩
        · simp at h1
        · simpa [Machine.set_thread_state] using hs
      have key : ThreadToNativeFromVM.dtor E g m2 = Result.ok ()
          (((if E.UseSystemMemoryBarrier = false then m2.set_thread_state_fence _thread_in_vm
            else m2.set_thread_state _thread_in_vm).process_if_requested_with_exit_check E
              false).set_thread_state _thread_in_vm) := by
        have h1 := hE (m2.set_thread_state_fence _thread_in_vm).thread
        have h2 := hE (m2.set_thread_state _thread_in_vm).thread
        clear hcase hs hE
        cases hU : E.UseSystemMemoryBarrier <;>
        simp_all [ThreadToNativeFromVM.dtor, transition_from_native, vmassert, Result.bind,
          Machine.set_thread_state, Machine.set_thread_state_fence,
          Machine.process_if_requested_with_exit_check,
          JavaThread.is_pending_jni_exception_check]
      exact ⟨_, key, by simp [Machine.set_thread_state, hst]⟩
    · simp at h
  · intro pr a g m1 h hs hpr hE
    simp only [ThreadBlockInVMPreprocess.ctor, Result.bind_ok_iff, transition_from_vm_ok_iff] at h
    obtain ⟨_, m', ⟨hst, hcase⟩, h⟩ := h
    simp only [Result.ok.injEq] at h
    obtain ⟨rfl, rfl⟩ := h
    have hm2 : m2.thread.thread_state = _thread_blocked := by
      rcases hcase with ⟨h1, _⟩ | ⟨_, _, rfl⟩
      · simp at h1
      · simpa [Machine.set_thread_state] using hs
    simp only [ThreadBlockInVMPreprocess.dtor, vmassert, hm2, if_true]
    split
    · exact ⟨_, rfl, by simp [Machine.process_if_requested, Machine.pre_proc,
        Machine.should_process, Machine.set_thread_state_fence, hE, hpr, hst]⟩
    · exact ⟨_, rfl, by simp [Machine.should_process, Machine.set_thread_state_fence, hst]⟩

/-- Witness of `guard_round_trip`: `ThreadInVMfromNative` on a thread in
`_thread_in_native` with a walkable stack and no no-safepoint verifier. -/
theorem guard_round_trip_witness :
    ∃ m3, ThreadInVMfromNative.dtor sampleCollaborators {}
        (ThreadInVMfromNative.ctor sampleCollaborators
          (walkableMachine _thread_in_native 0 0)).machine = Result.ok () m3 ∧
      m3.thread.thread_state = (walkableMachine _thread_in_native 0 0).thread.thread_state :=
  (guard_round_trip sampleCollaborators (walkableMachine _thread_in_native 0 0)
    (ThreadInVMfromNative.ctor sampleCollaborators
      (walkableMachine _thread_in_native 0 0)).machine).2.2.1 {}
    (ThreadInVMfromNative.ctor sampleCollaborators
      (walkableMachine _thread_in_native 0 0)).machine (by decide) (by decide) (by decide)

/-! ## Locks and the way to native -/

/-- C4, as stated, fails: a thread in `_thread_in_vm` that holds a lock (and is in
no no-safepoint verifier) is moved to `_thread_in_native` by `transition_from_vm`
and by the destructors of `ThreadInVMfromNative` and `ThreadInVMfromUnknown`; none
of them looks at the locks. -/
theorem locks_not_checked_by_transition_from_vm :
    (sampleMachine _thread_in_vm 1 0).thread.owns_locks = true ∧
    transition_from_vm sampleCollaborators (sampleMachine _thread_in_vm 1 0)
        _thread_in_native true
      = Result.ok ()
          ((sampleMachine _thread_in_vm 1 0).make_walkable.storestore.set_thread_state
            _thread_in_native) ∧
    (ThreadInVMfromNative.dtor sampleCollaborators {}
      (sampleMachine _thread_in_vm 1 0)).machine.thread.thread_state = _thread_in_native ∧
    (ThreadInVMfromUnknown.dtor sampleCollaborators { _thread := true }
      (sampleMachine _thread_in_vm 1 0)).machine.thread.thread_state = _thread_in_native := by
  decide

/-- C4 (amended): for every thread in `_thread_in_vm` that holds a lock, the
constructor of `ThreadToNativeFromVM` fails its assertion and writes nothing, while
`transition_from_vm` with destination `_thread_in_native` and the destructors of
`ThreadInVMfromNative` and of a `ThreadInVMfromUnknown` that recorded the thread do
not check the locks: with no no-safepoint verifier outstanding they make the
transition. -/
theorem locks_checked_only_by_ThreadToNativeFromVM (E : Collaborators) (m : Machine) (c : Bool)
    (hs : m.thread.thread_state = _thread_in_vm) (hl : m.thread.owned_locks ≠ 0) :
    ThreadToNativeFromVM.ctor E m
      = Result.fatal Assertion.must_release_all_locks_when_leaving_VM m ∧
    (m.thread.no_safepoint_count = 0 →
      transition_from_vm E m _thread_in_native c
        = Result.ok () (m.make_walkable.storestore.set_thread_state _thread_in_native) ∧
      ThreadInVMfromNative.dtor E {} m
        = Result.ok () (m.make_walkable.storestore.set_thread_state _thread_in_native) ∧
      ThreadInVMfromUnknown.dtor E { _thread := true } m
        = Result.ok () (m.make_walkable.storestore.set_thread_state _thread_in_native) ∧
      (m.make_walkable.storestore.set_thread_state _thread_in_native).thread.thread_state
        = _thread_in_native) := by
  refine ⟨?_, ?_⟩
  · simp [ThreadToNativeFromVM.ctor, vmassert, JavaThread.owns_locks, hl]
  · intro hn
    simp [ThreadInVMfromNative.dtor, ThreadInVMfromUnknown.dtor, transition_from_vm, vmassert,
      Machine.check_possible_safepoint, hs, hn, Machine.set_thread_state]

/-- Witness of `locks_checked_only_by_ThreadToNativeFromVM`: a thread in
`_thread_in_vm` holding one lock. -/
theorem locks_checked_only_by_ThreadToNativeFromVM_witness :
    ThreadToNativeFromVM.ctor sampleCollaborators (sampleMachine _thread_in_vm 1 0)
      = Result.fatal Assertion.must_release_all_locks_when_leaving_VM
          (sampleMachine _thread_in_vm 1 0) :=
  (locks_checked_only_by_ThreadToNativeFromVM sampleCollaborators
    (sampleMachine _thread_in_vm 1 0) true (by decide) (by decide)).1

/-- C5 (Scenario C): for every thread in `_thread_in_vm`, the constructor of
`ThreadToNativeFromVM` fails its assertion when the thread holds a lock, and the
machine at the failure is the machine before the call (state, frame anchor and
trace untouched); with no lock held and no no-safepoint verifier outstanding it
completes and the state is `_thread_in_native`. -/
theorem ThreadToNativeFromVM_ctor_scenario_C (E : Collaborators) (m : Machine)
    (hs : m.thread.thread_state = _thread_in_vm) :
    (0 < m.thread.owned_locks →
      ThreadToNativeFromVM.ctor E m
        = Result.fatal Assertion.must_release_all_locks_when_leaving_VM m ∧
      (ThreadToNativeFromVM.ctor E m).machine.thread.thread_state = _thread_in_vm ∧
      (ThreadToNativeFromVM.ctor E m).machine.thread.frame_anchor = m.thread.frame_anchor) ∧
    (m.thread.owned_locks = 0 → m.thread.no_safepoint_count = 0 →
      ∃ m1, ThreadToNativeFromVM.ctor E m = Result.ok {} m1 ∧
        m1.thread.thread_state = _thread_in_native) := by
  refine ⟨?_, ?_⟩
  · intro hl
    have hl0 : m.thread.owned_locks ≠ 0 := Nat.pos_iff_ne_zero.mp hl
    simp [ThreadToNativeFromVM.ctor, vmassert, JavaThread.owns_locks, hl0, Result.machine, hs]
  · intro hl hn
    simp [ThreadToNativeFromVM.ctor, vmassert, JavaThread.owns_locks, hl, hn, hs,
      transition_from_vm, Machine.check_possible_safepoint, Result.bind,
      Machine.set_thread_state]

/-- Witness of `ThreadToNativeFromVM_ctor_scenario_C`: a thread in `_thread_in_vm`
holding one lock. -/
theorem ThreadToNativeFromVM_ctor_scenario_C_witness :
    ThreadToNativeFromVM.ctor sampleCollaborators (sampleMachine _thread_in_vm 1 0)
        = Result.fatal Assertion.must_release_all_locks_when_leaving_VM
            (sampleMachine _thread_in_vm 1 0) ∧
      (ThreadToNativeFromVM.ctor sampleCollaborators
        (sampleMachine _thread_in_vm 1 0)).machine.thread.thread_state = _thread_in_vm ∧
      (ThreadToNativeFromVM.ctor sampleCollaborators
        (sampleMachine _thread_in_vm 1 0)).machine.thread.frame_anchor
        = (sampleMachine _thread_in_vm 1 0).thread.frame_anchor :=
  (ThreadToNativeFromVM_ctor_scenario_C sampleCollaborators (sampleMachine _thread_in_vm 1 0)
    (by decide)).1 (by decide)

/-! ## Walkability before the state write -/

/-- C6, as stated, fails: `transition_from_java` with destination
`_thread_in_native`, run on a thread whose stack is not walkable, writes the state
`_thread_in_native` as its only effect: no walkability write, no store-store fence,
and the frame anchor is still not walkable at the write. -/
theorem transition_from_java_to_native_skips_walkable :
    (transition_from_java (sampleMachine _thread_in_Java 0 0) _thread_in_native).isOk = true ∧
    (transition_from_java (sampleMachine _thread_in_Java 0 0)
      _thread_in_native).machine.thread.thread_state = _thread_in_native ∧
    (transition_from_java (sampleMachine _thread_in_Java 0 0)
      _thread_in_native).machine.thread.frame_anchor.walkable = false ∧
    (transition_from_java (sampleMachine _thread_in_Java 0 0)
      _thread_in_native).machine.trace = [Event.set_thread_state _thread_in_native] := by
  decide

/-- C6 (amended): whenever `transition_from_vm` writes the state `_thread_in_native`
or `_thread_blocked`, its effects are, in this order, the walkability write, the
store-store fence and the state write, and the frame anchor is walkable when the
state is written; `transition_from_native` never writes either state. (The remaining
engine function, `transition_from_java`, writes `_thread_in_native` without
walkability write or fence.) -/
theorem walkable_then_storestore_then_state (E : Collaborators) (m m1 : Machine)
    (to_state : JavaThreadState) (c : Bool)
    (hto : to_state = _thread_in_native ∨ to_state = _thread_blocked) :
    (transition_from_vm E m to_state c = Result.ok () m1 →
      m1 = m.make_walkable.storestore.set_thread_state to_state ∧
      m.make_walkable.storestore.thread.frame_anchor.walkable = true ∧
      m1.thread.frame_anchor.walkable = true ∧
      m1.thread.thread_state = to_state ∧
      m1.trace = m.trace ++
        [Event.make_walkable, Event.storestore, Event.set_thread_state to_state]) ∧
    (∀ to2 c2, ∀ e ∈ emitted m (transition_from_native E m to2 c2),
      e.state_write ≠ some _thread_in_native ∧ e.state_write ≠ some _thread_blocked) := by
  refine ⟨?_, ?_⟩
  · intro h
    rw [transition_from_vm_ok_iff] at h
    obtain ⟨_, ⟨h1, _⟩ | ⟨_, _, rfl⟩⟩ := h
    · rcases hto with rfl | rfl <;> simp at h1
    · simp [Machine.set_thread_state, Machine.storestore, Machine.make_walkable,
        JavaFrameAnchor.make_walkable]
  · intro to2 c2
    unfold transition_from_native
    simp only [vmassert]
    split_ifs <;>
    simp_all [emitted, Result.machine, Machine.set_thread_state, Machine.set_thread_state_fence,
      Machine.process_if_requested_with_exit_check, Event.state_write]

/-- Witness of `walkable_then_storestore_then_state`: the edge to `_thread_blocked`
from a thread whose stack was not walkable. -/
theorem walkable_then_storestore_then_state_witness :
    (sampleMachine _thread_in_vm 0 0).make_walkable.storestore.thread.frame_anchor.walkable
      = true ∧
    ((sampleMachine _thread_in_vm 0 0).make_walkable.storestore.set_thread_state
      _thread_blocked).trace
      = (sampleMachine _thread_in_vm 0 0).trace ++
        [Event.make_walkable, Event.storestore, Event.set_thread_state _thread_blocked] :=
  have h := (walkable_then_storestore_then_state sampleCollaborators
    (sampleMachine _thread_in_vm 0 0)
    ((sampleMachine _thread_in_vm 0 0).make_walkable.storestore.set_thread_state _thread_blocked)
    _thread_blocked true (Or.inr rfl)).1 (by decide)
  ⟨h.2.1, h.2.2.2.2⟩

/-! ## The guard for an unknown calling context -/

/-- C7: when the current thread is not a Java thread, or is a Java thread whose
state is not `_thread_in_native`, the constructor of `ThreadInVMfromUnknown`
completes with the machine untouched (no state write, no pause-coordinator call)
and `_thread` null, and the destructor of that guard leaves every machine
untouched; a constructed guard has recorded the thread exactly when the current
thread is a Java thread that was in `_thread_in_native`, in which case the
constructor is `transition_from_native` to `_thread_in_vm`; and the destructor
performs `transition_from_vm` to `_thread_in_native` exactly when the thread was
recorded. -/
theorem ThreadInVMfromUnknown_records_iff_native (E : Collaborators) (is_Java_thread : Bool)
    (m m2 : Machine) :
    ((is_Java_thread = false ∨ m.thread.thread_state ≠ _thread_in_native) →
      ThreadInVMfromUnknown.ctor E is_Java_thread m = Result.ok { _thread := false } m ∧
      emitted m (ThreadInVMfromUnknown.ctor E is_Java_thread m) = [] ∧
      ThreadInVMfromUnknown.dtor E { _thread := false } m2 = Result.ok () m2) ∧
    (∀ g m1, ThreadInVMfromUnknown.ctor E is_Java_thread m = Result.ok g m1 →
      (g._thread = true ↔
        (is_Java_thread = true ∧ m.thread.thread_state = _thread_in_native))) ∧
    (is_Java_thread = true → m.thread.thread_state = _thread_in_native →
      ThreadInVMfromUnknown.ctor E is_Java_thread m =
        (transition_from_native E m _thread_in_vm true).bind
          fun _ m1 => Result.ok { _thread := true } m1) ∧
    (∀ g : ThreadInVMfromUnknown,
      (g._thread = true →
        ThreadInVMfromUnknown.dtor E g m2 = transition_from_vm E m2 _thread_in_native true) ∧
      (g._thread = false → ThreadInVMfromUnknown.dtor E g m2 = Result.ok () m2)) := by
  refine ⟨?_, ?_, ?_, ?_⟩
  · rintro (h | h) <;>
      simp [ThreadInVMfromUnknown.ctor, ThreadInVMfromUnknown.dtor, h, emitted, Result.machine]
  · intro g m1 h
    simp only [ThreadInVMfromUnknown.ctor] at h
    split at h
    · split at h
      · rename_i hj hn
        simp only [Result.bind_ok_iff] at h
        obtain ⟨_, _, _, h⟩ := h
        simp only [Result.ok.injEq] at h
        obtain ⟨rfl, _⟩ := h
        simp [hj, hn]
      · rename_i hj hn
        simp only [Result.ok.injEq] at h
        obtain ⟨rfl, _⟩ := h
        simp [hn]
    · rename_i hj
      simp only [Result.ok.injEq] at h
      obtain ⟨rfl, _⟩ := h
      simp [hj]
  · intro hj hn
    simp [ThreadInVMfromUnknown.ctor, hj, hn]
  · intro g
    constructor <;> intro h <;> simp [ThreadInVMfromUnknown.dtor, h]

/-- Witness of `ThreadInVMfromUnknown_records_iff_native`: a Java thread in
`_thread_in_vm`. -/
theorem ThreadInVMfromUnknown_records_iff_native_witness :
    ThreadInVMfromUnknown.ctor sampleCollaborators true (sampleMachine _thread_in_vm 0 0)
        = Result.ok { _thread := false } (sampleMachine _thread_in_vm 0 0) ∧
      emitted (sampleMachine _thread_in_vm 0 0)
        (ThreadInVMfromUnknown.ctor sampleCollaborators true
          (sampleMachine _thread_in_vm 0 0)) = [] ∧
      ThreadInVMfromUnknown.dtor sampleCollaborators { _thread := false }
        (sampleMachine _thread_in_vm 0 0) = Result.ok () (sampleMachine _thread_in_vm 0 0) :=
  (ThreadInVMfromUnknown_records_iff_native sampleCollaborators true
    (sampleMachine _thread_in_vm 0 0) (sampleMachine _thread_in_vm 0 0)).1
    (Or.inr (by decide))

/-! ## The blocking guard -/

/-- C8, as stated, fails: on a thread in `_thread_in_vm` that is inside a
no-safepoint verifier the constructor of `ThreadBlockInVMPreprocess` fails the
check of `check_possible_safepoint()`; the state is still `_thread_in_vm` and the
stack has not been made walkable. -/
theorem blocking_guard_refused_under_no_safepoint_verifier :
    (sampleMachine _thread_in_vm 0 1).thread.thread_state = _thread_in_vm ∧
    (ThreadBlockInVMPreprocess.ctor sampleCollaborators (sampleMachine _thread_in_vm 0 1)
      ThreadBlockInVM.emptyOp true).isOk = false ∧
    (ThreadBlockInVMPreprocess.ctor sampleCollaborators (sampleMachine _thread_in_vm 0 1)
      ThreadBlockInVM.emptyOp true).machine.thread.thread_state = _thread_in_vm ∧
    (ThreadBlockInVMPreprocess.ctor sampleCollaborators (sampleMachine _thread_in_vm 0 1)
      ThreadBlockInVM.emptyOp true).machine.thread.frame_anchor.walkable = false := by
  decide

/-- C8 (amended, Scenario B): for every thread in `_thread_in_vm` with no
no-safepoint verifier outstanding, the constructor of `ThreadBlockInVMPreprocess`
completes with state `_thread_blocked` and a walkable stack. Its destructor, run on
a thread in `_thread_blocked`, completes; it first writes the state `_thread_in_vm`
(fenced) and asks `should_process(thread, allow_suspend)`; if the answer is true it
calls the call-back once and then `process_if_requested(thread, allow_suspend,
false)`, otherwise it calls neither. The thread ends in `_thread_in_vm` when the
answer is false, and also when it is true provided the call-back and
`process_if_requested` return with the state unchanged. -/
theorem ThreadBlockInVMPreprocess_scenario_B (E : Collaborators)
    (pr : JavaThread → JavaThread) (allow_suspend : Bool) (m m2 : Machine) :
    (m.thread.thread_state = _thread_in_vm → m.thread.no_safepoint_count = 0 →
      ∃ m1, ThreadBlockInVMPreprocess.ctor E m pr allow_suspend
          = Result.ok { _pr := pr, _allow_suspend := allow_suspend } m1 ∧
        m1.thread.thread_state = _thread_blocked ∧
        m1.thread.frame_anchor.walkable = true) ∧
    (m2.thread.thread_state = _thread_blocked →
      (E.should_process (m2.set_thread_state_fence _thread_in_vm).thread allow_suspend = true →
        ThreadBlockInVMPreprocess.dtor E { _pr := pr, _allow_suspend := allow_suspend } m2
          = Result.ok ()
              ((((m2.set_thread_state_fence _thread_in_vm).should_process
                allow_suspend).pre_proc pr).process_if_requested E allow_suspend false) ∧
        emitted m2
            (ThreadBlockInVMPreprocess.dtor E { _pr := pr, _allow_suspend := allow_suspend } m2)
          = [Event.set_thread_state_fence _thread_in_vm,
             Event.should_process _thread_in_vm allow_suspend,
             Event.pre_proc _thread_in_vm,
             Event.process_if_requested
               (pr (m2.set_thread_state_fence _thread_in_vm).thread).thread_state
               allow_suspend false] ∧
        ((∀ t, (pr t).thread_state = t.thread_state) →
          (∀ t x y, (E.process_if_requested t x y).thread_state = t.thread_state) →
          (ThreadBlockInVMPreprocess.dtor E { _pr := pr, _allow_suspend := allow_suspend }
            m2).machine.thread.thread_state = _thread_in_vm)) ∧
      (E.should_process (m2.set_thread_state_fence _thread_in_vm).thread allow_suspend = false →
        ThreadBlockInVMPreprocess.dtor E { _pr := pr, _allow_suspend := allow_suspend } m2
          = Result.ok () ((m2.set_thread_state_fence _thread_in_vm).should_process
              allow_suspend) ∧
        emitted m2
            (ThreadBlockInVMPreprocess.dtor E { _pr := pr, _allow_suspend := allow_suspend } m2)
          = [Event.set_thread_state_fence _thread_in_vm,
             Event.should_process _thread_in_vm allow_suspend] ∧
        (ThreadBlockInVMPreprocess.dtor E { _pr := pr, _allow_suspend := allow_suspend }
          m2).machine.thread.thread_state = _thread_in_vm)) := by
  refine ⟨?_, ?_⟩
  · intro hs hn
    simp [ThreadBlockInVMPreprocess.ctor, transition_from_vm, vmassert, hs, hn,
      Machine.check_possible_safepoint, Result.bind, Machine.set_thread_state,
      Machine.storestore, Machine.make_walkable, JavaFrameAnchor.make_walkable]
  · intro hs
    refine ⟨?_, ?_⟩
    · intro hp
      have key : ThreadBlockInVMPreprocess.dtor E { _pr := pr, _allow_suspend := allow_suspend } m2
          = Result.ok ()
              ((((m2.set_thread_state_fence _thread_in_vm).should_process
                allow_suspend).pre_proc pr).process_if_requested E allow_suspend false) := by
        simp [ThreadBlockInVMPreprocess.dtor, vmassert, hs, hp]
      refine ⟨key, ?_, ?_⟩
      · rw [key]
        simp [emitted, Result.machine, Machine.process_if_requested, Machine.pre_proc,
          Machine.should_process, Machine.set_thread_state_fence]
      · intro hpr hE
        rw [key]
        simp [Result.machine, Machine.process_if_requested, Machine.pre_proc,
          Machine.should_process, Machine.set_thread_state_fence, hpr, hE]
    · intro hp
      have key : ThreadBlockInVMPreprocess.dtor E { _pr := pr, _allow_suspend := allow_suspend } m2
          = Result.ok () ((m2.set_thread_state_fence _thread_in_vm).should_process
              allow_suspend) := by
        simp [ThreadBlockInVMPreprocess.dtor, vmassert, hs, hp]
      refine ⟨key, ?_, ?_⟩
      · rw [key]
        simp [emitted, Result.machine, Machine.should_process, Machine.set_thread_state_fence]
      · rw [key]
        simp [Result.machine, Machine.should_process, Machine.set_thread_state_fence]

/-- Witness of `ThreadBlockInVMPreprocess_scenario_B`: the destructor of a
`ThreadBlockInVM` constructed with `allow_suspend = true`, run while a handshake is
requested. -/
theorem ThreadBlockInVMPreprocess_scenario_B_witness :
    emitted
        { thread := { sampleThread _thread_blocked 0 0 with handshake_requested := true },
          trace := [] }
        (ThreadBlockInVMPreprocess.dtor sampleCollaborators
          { _pr := ThreadBlockInVM.emptyOp, _allow_suspend := true }
          { thread := { sampleThread _thread_blocked 0 0 with handshake_requested := true },
            trace := [] })
      = [Event.set_thread_state_fence _thread_in_vm,
         Event.should_process _thread_in_vm true,
         Event.pre_proc _thread_in_vm,
         Event.process_if_requested _thread_in_vm true false] :=
  ((ThreadBlockInVMPreprocess_scenario_B sampleCollaborators ThreadBlockInVM.emptyOp true
    (sampleMachine _thread_in_vm 0 0)
    { thread := { sampleThread _thread_blocked 0 0 with handshake_requested := true },
      trace := [] }).2 (by decide)).1 (by decide) |>.2.1

/-! ## The async-exception check of the pause-coordinator calls -/

/-- C9: in the effects of every engine function and of every constructor and
destructor of the guards, a pause-coordinator call with the async-exception check
enabled is followed by a state write, the first of which is to `_thread_in_Java`.
In particular `transition_from_native` to `_thread_in_vm` makes no call with the
check enabled whatever `check_asyncs` is, `transition_from_vm` to `_thread_in_native`
or `_thread_blocked` makes no pause-coordinator call, and the destructor of the
blocking guard makes no call with the check enabled. Scenario D: neither the
constructor nor the destructor of `ThreadInVMfromNative` makes a call with the check
enabled, so a pending asynchronous exception is left as it is by any pause
coordinator that touches it only when asked to check. -/
theorem async_check_only_before_Java (E : Collaborators) (m : Machine)
    (to_state : JavaThreadState) (c : Bool) (pr : JavaThread → JavaThread) (a j : Bool)
    (gJ : ThreadInVMfromJava) (gU : ThreadInVMfromUnknown) (gB : ThreadBlockInVMPreprocess) :
    (checked_polls_resume_Java (emitted m (transition_from_java m to_state)) = true ∧
      checked_polls_resume_Java (emitted m (transition_from_native E m to_state c)) = true ∧
      checked_polls_resume_Java (emitted m (transition_from_vm E m to_state c)) = true ∧
      checked_polls_resume_Java (emitted m (ThreadInVMfromJava.ctor m c)) = true ∧
      checked_polls_resume_Java (emitted m (ThreadInVMfromJava.dtor E gJ m)) = true ∧
      checked_polls_resume_Java (emitted m (ThreadInVMfromUnknown.ctor E j m)) = true ∧
      checked_polls_resume_Java (emitted m (ThreadInVMfromUnknown.dtor E gU m)) = true ∧
      checked_polls_resume_Java (emitted m (ThreadInVMfromNative.ctor E m)) = true ∧
      checked_polls_resume_Java (emitted m (ThreadInVMfromNative.dtor E {} m)) = true ∧
      checked_polls_resume_Java (emitted m (ThreadToNativeFromVM.ctor E m)) = true ∧
      checked_polls_resume_Java (emitted m (ThreadToNativeFromVM.dtor E {} m)) = true ∧
      checked_polls_resume_Java (emitted m (ThreadBlockInVMPreprocess.ctor E m pr a)) = true ∧
      checked_polls_resume_Java (emitted m (ThreadBlockInVM.ctor E m a)) = true ∧
      checked_polls_resume_Java (emitted m (ThreadBlockInVMPreprocess.dtor E gB m)) = true) ∧
    (∀ e ∈ emitted m (transition_from_native E m _thread_in_vm c),
      e.poll_check ≠ some true) ∧
    ((to_state = _thread_in_native ∨ to_state = _thread_blocked) →
      ∀ e ∈ emitted m (transition_from_vm E m to_state c), e.is_poll = false) ∧
    (∀ e ∈ emitted m (ThreadBlockInVMPreprocess.dtor E gB m), e.poll_check ≠ some true) ∧
    (∀ e ∈ emitted m (ThreadInVMfromNative.ctor E m), e.poll_check ≠ some true) ∧
    (∀ e ∈ emitted m (ThreadInVMfromNative.dtor E {} m), e.is_poll = false) ∧
    ((∀ t, (E.process_if_requested_with_exit_check t false).pending_async_exception
        = t.pending_async_exception) →
      (ThreadInVMfromNative.ctor E m).machine.thread.pending_async_exception
        = m.thread.pending_async_exception ∧
      (ThreadInVMfromNative.dtor E {} m).machine.thread.pending_async_exception
        = m.thread.pending_async_exception) := by
  refine ⟨⟨checked_polls_transition_from_java m _, checked_polls_transition_from_native E m _ _,
    checked_polls_transition_from_vm E m _ _, checked_polls_ThreadInVMfromJava_ctor m _,
    checked_polls_ThreadInVMfromJava_dtor E _ m, checked_polls_ThreadInVMfromUnknown_ctor E _ m,
    checked_polls_ThreadInVMfromUnknown_dtor E _ m, checked_polls_ThreadInVMfromNative_ctor E m,
    checked_polls_ThreadInVMfromNative_dtor E _ m, checked_polls_ThreadToNativeFromVM_ctor E m,
    checked_polls_ThreadToNativeFromVM_dtor E _ m,
    checked_polls_ThreadBlockInVMPreprocess_ctor E m _ _,
    checked_polls_ThreadBlockInVMPreprocess_ctor E m _ _,
    checked_polls_ThreadBlockInVMPreprocess_dtor E _ m⟩, ?_, ?_, ?_, ?_, ?_, ?_⟩
  · clear pr a j gJ gU gB to_state
    simp only [ThreadInVMfromNative.ctor, ThreadInVMfromNative.dtor,
      ThreadBlockInVMPreprocess.dtor, transition_from_native, transition_from_vm, vmassert,
      Machine.check_possible_safepoint]
    split_ifs <;>
    simp_all [Result.bind, emitted, Result.machine, Machine.set_thread_state,
      Machine.set_thread_state_fence, Machine.storestore, Machine.make_walkable,
      Machine.process_if_requested_with_exit_check, Machine.process_if_requested,
      Machine.pre_proc, Machine.should_process, Event.poll_check, Event.is_poll]
  · intro hto
    clear pr a j gJ gU gB
    simp only [ThreadInVMfromNative.ctor, ThreadInVMfromNative.dtor,
      ThreadBlockInVMPreprocess.dtor, transition_from_native, transition_from_vm, vmassert,
      Machine.check_possible_safepoint]
    split_ifs <;>
    simp_all [Result.bind, emitted, Result.machine, Machine.set_thread_state,
      Machine.set_thread_state_fence, Machine.storestore, Machine.make_walkable,
      Machine.process_if_requested_with_exit_check, Machine.process_if_requested,
      Machine.pre_proc, Machine.should_process, Event.poll_check, Event.is_poll]
  · clear pr a j gJ gU to_state c
    simp only [ThreadInVMfromNative.ctor, ThreadInVMfromNative.dtor,
      ThreadBlockInVMPreprocess.dtor, transition_from_native, transition_from_vm, vmassert,
      Machine.check_possible_safepoint]
    split_ifs <;>
    simp_all [Result.bind, emitted, Result.machine, Machine.set_thread_state,
      Machine.set_thread_state_fence, Machine.storestore, Machine.make_walkable,
      Machine.process_if_requested_with_exit_check, Machine.process_if_requested,
      Machine.pre_proc, Machine.should_process, Event.poll_check, Event.is_poll]
  · clear pr a j gJ gU gB to_state c
    simp only [ThreadInVMfromNative.ctor, ThreadInVMfromNative.dtor,
      ThreadBlockInVMPreprocess.dtor, transition_from_native, transition_from_vm, vmassert,
      Machine.check_possible_safepoint]
    split_ifs <;>
    simp_all [Result.bind, emitted, Result.machine, Machine.set_thread_state,
      Machine.set_thread_state_fence, Machine.storestore, Machine.make_walkable,
      Machine.process_if_requested_with_exit_check, Machine.process_if_requested,
      Machine.pre_proc, Machine.should_process, Event.poll_check, Event.is_poll]
  · clear pr a j gJ gU gB to_state c
    simp only [ThreadInVMfromNative.ctor, ThreadInVMfromNative.dtor,
      ThreadBlockInVMPreprocess.dtor, transition_from_native, transition_from_vm, vmassert,
      Machine.check_possible_safepoint]
    split_ifs <;>
    simp_all [Result.bind, emitted, Result.machine, Machine.set_thread_state,
      Machine.set_thread_state_fence, Machine.storestore, Machine.make_walkable,
      Machine.process_if_requested_with_exit_check, Machine.process_if_requested,
      Machine.pre_proc, Machine.should_process, Event.poll_check, Event.is_poll]
  · intro hE
    clear pr a j gJ gU gB to_state c
    simp only [ThreadInVMfromNative.ctor, ThreadInVMfromNative.dtor,
      ThreadBlockInVMPreprocess.dtor, transition_from_native, transition_from_vm, vmassert,
      Machine.check_possible_safepoint]
    split_ifs <;>
    simp_all [Result.bind, emitted, Result.machine, Machine.set_thread_state,
      Machine.set_thread_state_fence, Machine.storestore, Machine.make_walkable,
      Machine.process_if_requested_with_exit_check, Machine.process_if_requested,
      Machine.pre_proc, Machine.should_process, Event.poll_check, Event.is_poll]

/-- Witness of `async_check_only_before_Java` (Scenario D): a thread that enters the
VM from native code, has an asynchronous exception installed, and leaves again still
has it pending. -/
theorem async_check_only_before_Java_witness :
    (ThreadInVMfromNative.dtor sampleCollaborators {}
      { thread := { sampleThread _thread_in_vm 0 0 with pending_async_exception := true },
        trace := [] }).machine.thread.pending_async_exception = true :=
  ((async_check_only_before_Java sampleCollaborators
      { thread := { sampleThread _thread_in_vm 0 0 with pending_async_exception := true },
        trace := [] }
      _thread_in_vm true ThreadBlockInVM.emptyOp true true { _check_asyncs := true }
      { _thread := true } { _pr := ThreadBlockInVM.emptyOp, _allow_suspend := true }).2.2.2.2.2.2
    (fun _ => rfl)).2

/-- C10: for every thread in `_thread_in_Java` and every `c`, the constructor
`ThreadInVMfromJava(thread, c)` completes with the state write to `_thread_in_vm` as
its only effect (no pause-coordinator call), and omitting `c` means `true`; its
destructor, run on a thread in `_thread_in_vm`, completes, and its effects are: the
re-enabling of the yellow zone if that was disabled, then one call of
`process_if_requested_with_exit_check` made in state `_thread_in_vm` with the check
equal to `c`, then the state write to `_thread_in_Java`. -/
theorem ThreadInVMfromJava_polls_once_before_Java (E : Collaborators) (c : Bool)
    (m m2 : Machine) :
    (m.thread.thread_state = _thread_in_Java →
      ThreadInVMfromJava.ctor m c
        = Result.ok { _check_asyncs := c } (m.set_thread_state _thread_in_vm) ∧
      (m.set_thread_state _thread_in_vm).thread.thread_state = _thread_in_vm ∧
      emitted m (ThreadInVMfromJava.ctor m c) = [Event.set_thread_state _thread_in_vm]) ∧
    ThreadInVMfromJava.ctor_default m = ThreadInVMfromJava.ctor m true ∧
    (m2.thread.thread_state = _thread_in_vm →
      ∃ m3, ThreadInVMfromJava.dtor E { _check_asyncs := c } m2 = Result.ok () m3 ∧
        m3.thread.thread_state = _thread_in_Java ∧
        emitted m2 (ThreadInVMfromJava.dtor E { _check_asyncs := c } m2)
          = (if m2.thread.stack_overflow_state.stack_yellow_reserved_zone_disabled = true
              then [Event.enable_stack_yellow_reserved_zone] else []) ++
            [Event.process_if_requested_with_exit_check _thread_in_vm c,
             Event.set_thread_state _thread_in_Java]) := by
  refine ⟨?_, rfl, ?_⟩
  · intro hs
    simp [ThreadInVMfromJava.ctor, transition_from_java, vmassert, hs, Result.bind, emitted,
      Result.machine, Machine.set_thread_state]
  · intro hs
    by_cases hy : m2.thread.stack_overflow_state.stack_yellow_reserved_zone_disabled = true <;>
    simp [ThreadInVMfromJava.dtor, transition_from_vm, vmassert, hs, hy, emitted,
      Result.machine, Machine.set_thread_state, Machine.enable_stack_yellow_reserved_zone,
      Machine.process_if_requested_with_exit_check]

/-- Witness of `ThreadInVMfromJava_polls_once_before_Java`: the destructor of a
guard made with `check_asyncs = false` on a thread in `_thread_in_vm`. -/
theorem ThreadInVMfromJava_polls_once_before_Java_witness :
    ∃ m3, ThreadInVMfromJava.dtor sampleCollaborators { _check_asyncs := false }
        (sampleMachine _thread_in_vm 0 0) = Result.ok () m3 ∧
      m3.thread.thread_state = _thread_in_Java ∧
      emitted (sampleMachine _thread_in_vm 0 0)
          (ThreadInVMfromJava.dtor sampleCollaborators { _check_asyncs := false }
            (sampleMachine _thread_in_vm 0 0))
        = (if (sampleMachine _thread_in_vm 0 0).thread.stack_overflow_state.stack_yellow_reserved_zone_disabled
              = true
            then [Event.enable_stack_yellow_reserved_zone] else []) ++
          [Event.process_if_requested_with_exit_check _thread_in_vm false,
           Event.set_thread_state _thread_in_Java] :=
  (ThreadInVMfromJava_polls_once_before_Java sampleCollaborators false
    (sampleMachine _thread_in_Java 0 0) (sampleMachine _thread_in_vm 0 0)).2.2 (by decide)

/-! ## Step lemmas for the constructors and destructors -/

/-- Steps compose. -/
theorem Machine.steps_to_trans {m m1 m2 : Machine} {s1 s2 : JavaThreadState}
    {w1 w2 : List JavaThreadState} (h1 : m.steps_to m1 s1 w1) (h2 : m1.steps_to m2 s2 w2) :
    m.steps_to m2 s2 (w1 ++ w2) := by
  obtain ⟨_, hl1, hn1, hj1, t1, ht1, hw1⟩ := h1
  obtain ⟨hs2, hl2, hn2, hj2, t2, ht2, hw2⟩ := h2
  refine ⟨hs2, hl2.trans hl1, hn2.trans hn1, hj2.trans hj1, t1 ++ t2, ?_, ?_⟩
  · rw [ht2, ht1, List.append_assoc]
  · simp [state_writes, List.filterMap_append] at hw1 hw2 ⊢
    rw [hw1, hw2]

/-- The state writes emitted by a completed run that steps from `m`. -/
theorem Machine.steps_to_emitted {m m2 : Machine} {s : JavaThreadState}
    {ws : List JavaThreadState} (h : m.steps_to m2 s ws) (u : Unit) :
    state_writes (emitted m (Result.ok u m2)) = ws := by
  obtain ⟨_, _, _, _, tr, ht, hw⟩ := h
  simp [emitted, Result.machine, ht, hw]

/-- The constructor of `ThreadInVMfromJava` on a thread in `_thread_in_Java`. -/
theorem ThreadInVMfromJava_ctor_steps (m : Machine) (c : Bool)
    (hs : m.thread.thread_state = _thread_in_Java) :
    ∃ m2, ThreadInVMfromJava.ctor m c = Result.ok { _check_asyncs := c } m2 ∧
      m.steps_to m2 _thread_in_vm [_thread_in_vm] := by
  refine ⟨m.set_thread_state _thread_in_vm, ?_, ?_⟩
  · simp [ThreadInVMfromJava.ctor, transition_from_java, vmassert, hs, Result.bind]
  · simp [Machine.steps_to, Machine.set_thread_state, state_writes, Event.state_write]

/-- The destructor of `ThreadInVMfromJava` on a thread in `_thread_in_vm`. -/
theorem ThreadInVMfromJava_dtor_steps (E : Collaborators) (g : ThreadInVMfromJava)
    (m : Machine) (hE : E.keeps_checked_fields)
    (hs : m.thread.thread_state = _thread_in_vm) :
    ∃ m2, ThreadInVMfromJava.dtor E g m = Result.ok () m2 ∧
      m.steps_to m2 _thread_in_Java [_thread_in_Java] := by
  have h1 := hE.1
  simp only [JavaThread.same_checked_fields] at h1
  by_cases hy : m.thread.stack_overflow_state.stack_yellow_reserved_zone_disabled = true
  · refine ⟨((m.enable_stack_yellow_reserved_zone E).process_if_requested_with_exit_check E
      g._check_asyncs).set_thread_state _thread_in_Java, ?_, ?_⟩
    · simp [ThreadInVMfromJava.dtor, transition_from_vm, vmassert, hs, hy,
        Machine.enable_stack_yellow_reserved_zone]
    · simp [Machine.steps_to, Machine.set_thread_state, state_writes, Event.state_write,
        Machine.process_if_requested_with_exit_check, Machine.enable_stack_yellow_reserved_zone,
        h1]
  · refine ⟨(m.process_if_requested_with_exit_check E
      g._check_asyncs).set_thread_state _thread_in_Java, ?_, ?_⟩
    · simp [ThreadInVMfromJava.dtor, transition_from_vm, vmassert, hs, hy]
    · simp [Machine.steps_to, Machine.set_thread_state, state_writes, Event.state_write,
        Machine.process_if_requested_with_exit_check, h1]

/-- The constructor of `ThreadBlockInVM` on a thread in `_thread_in_vm` outside any
no-safepoint verifier. -/
theorem ThreadBlockInVM_ctor_steps (E : Collaborators) (m : Machine) (a : Bool)
    (hs : m.thread.thread_state = _thread_in_vm) (hn : m.thread.no_safepoint_count = 0) :
    ∃ m2, ThreadBlockInVM.ctor E m a
        = Result.ok { _pr := ThreadBlockInVM.emptyOp, _allow_suspend := a } m2 ∧
      m.steps_to m2 _thread_blocked [_thread_blocked] := by
  refine ⟨m.make_walkable.storestore.set_thread_state _thread_blocked, ?_, ?_⟩
  · simp [ThreadBlockInVM.ctor, ThreadBlockInVMPreprocess.ctor, transition_from_vm, vmassert,
      Machine.check_possible_safepoint, hs, hn, Result.bind]
  · simp [Machine.steps_to, Machine.set_thread_state, Machine.storestore, Machine.make_walkable,
      state_writes, Event.state_write]

/-- The destructor of a `ThreadBlockInVM` on a thread in `_thread_blocked`. -/
theorem ThreadBlockInVM_dtor_steps (E : Collaborators) (m : Machine) (a : Bool)
    (hE : E.keeps_checked_fields) (hs : m.thread.thread_state = _thread_blocked) :
    ∃ m2, ThreadBlockInVMPreprocess.dtor E
        { _pr := ThreadBlockInVM.emptyOp, _allow_suspend := a } m = Result.ok () m2 ∧
      m.steps_to m2 _thread_in_vm [_thread_in_vm] := by
  have h2 := hE.2
  simp only [JavaThread.same_checked_fields] at h2
  by_cases hp : E.should_process (m.set_thread_state_fence _thread_in_vm).thread a = true
  · refine ⟨(((m.set_thread_state_fence _thread_in_vm).should_process a).pre_proc
      ThreadBlockInVM.emptyOp).process_if_requested E a false, ?_, ?_⟩
    · simp [ThreadBlockInVMPreprocess.dtor, vmassert, hs, hp]
    · simp [Machine.steps_to, Machine.set_thread_state_fence, Machine.should_process,
        Machine.pre_proc, Machine.process_if_requested, ThreadBlockInVM.emptyOp, state_writes,
        Event.state_write, h2]
  · refine ⟨(m.set_thread_state_fence _thread_in_vm).should_process a, ?_, ?_⟩
    · simp [ThreadBlockInVMPreprocess.dtor, vmassert, hs, hp]
    · simp [Machine.steps_to, Machine.set_thread_state_fence, Machine.should_process,
        state_writes, Event.state_write]

/-- The constructor of `ThreadToNativeFromVM` on a thread in `_thread_in_vm` that
holds no lock and is outside any no-safepoint verifier. -/
theorem ThreadToNativeFromVM_ctor_steps (E : Collaborators) (m : Machine)
    (hs : m.thread.thread_state = _thread_in_vm) (hl : m.thread.owned_locks = 0)
    (hn : m.thread.no_safepoint_count = 0) :
    ∃ m2, ThreadToNativeFromVM.ctor E m = Result.ok {} m2 ∧
      m.steps_to m2 _thread_in_native [_thread_in_native] ∧
      m2.thread.frame_anchor.walkable = true := by
  refine ⟨m.make_walkable.storestore.set_thread_state _thread_in_native, ?_, ?_, ?_⟩
  · simp [ThreadToNativeFromVM.ctor, transition_from_vm, vmassert, JavaThread.owns_locks,
      Machine.check_possible_safepoint, hs, hl, hn, Result.bind]
  · simp [Machine.steps_to, Machine.set_thread_state, Machine.storestore, Machine.make_walkable,
      state_writes, Event.state_write]
  · simp [Machine.set_thread_state, Machine.storestore, Machine.make_walkable,
      JavaFrameAnchor.make_walkable]

/-- The machine after `transition_from_native` to `_thread_in_vm`, for a pause
coordinator that keeps the checked fields. -/
theorem Machine.entered_vm_from_native_steps (E : Collaborators) (m : Machine)
    (hE : E.keeps_checked_fields) :
    m.steps_to (m.entered_vm_from_native E) _thread_in_vm [_thread_in_vm, _thread_in_vm] := by
  have h1 := hE.1
  simp only [JavaThread.same_checked_fields] at h1
  cases hU : E.UseSystemMemoryBarrier <;>
  simp [Machine.steps_to, Machine.entered_vm_from_native, Machine.set_thread_state,
    Machine.set_thread_state_fence, Machine.process_if_requested_with_exit_check, state_writes,
    Event.state_write, h1, hU]

/-- The destructor of `ThreadToNativeFromVM` on a thread in `_thread_in_native` with
a walkable stack and no JNI exception check pending. -/
theorem ThreadToNativeFromVM_dtor_steps (E : Collaborators) (g : ThreadToNativeFromVM)
    (m : Machine) (hE : E.keeps_checked_fields)
    (hs : m.thread.thread_state = _thread_in_native)
    (hw : m.thread.has_last_Java_frame = false ∨ m.thread.frame_anchor.walkable = true)
    (hj : m.thread.pending_jni_exception_check = false) :
    ∃ m2, ThreadToNativeFromVM.dtor E g m = Result.ok () m2 ∧
      m.steps_to m2 _thread_in_vm [_thread_in_vm, _thread_in_vm] := by
  have hst := Machine.entered_vm_from_native_steps E m hE
  refine ⟨m.entered_vm_from_native E, ?_, hst⟩
  have h1 : transition_from_native E m _thread_in_vm true
      = Result.ok () (m.entered_vm_from_native E) := by
    rw [transition_from_native_ok_iff]
    exact ⟨hs, Or.inl rfl, hw, by simp [Machine.entered_vm_from_native]⟩
  have hj2 : (m.entered_vm_from_native E).thread.pending_jni_exception_check = false := by
    rw [hst.2.2.2.1, hj]
  simp [ThreadToNativeFromVM.dtor, h1, Result.bind, vmassert,
    JavaThread.is_pending_jni_exception_check, hj2]

/-- The constructor of `ThreadInVMfromNative` on a thread in `_thread_in_native` with
a walkable stack. -/
theorem ThreadInVMfromNative_ctor_steps (E : Collaborators) (m : Machine)
    (hE : E.keeps_checked_fields) (hs : m.thread.thread_state = _thread_in_native)
    (hw : m.thread.has_last_Java_frame = false ∨ m.thread.frame_anchor.walkable = true) :
    ∃ m2, ThreadInVMfromNative.ctor E m = Result.ok {} m2 ∧
      m.steps_to m2 _thread_in_vm [_thread_in_vm, _thread_in_vm] := by
  refine ⟨m.entered_vm_from_native E, ?_, Machine.entered_vm_from_native_steps E m hE⟩
  have h1 : transition_from_native E m _thread_in_vm true
      = Result.ok () (m.entered_vm_from_native E) := by
    rw [transition_from_native_ok_iff]
    exact ⟨hs, Or.inl rfl, hw, by simp [Machine.entered_vm_from_native]⟩
  simp [ThreadInVMfromNative.ctor, h1, Result.bind]

/-- The destructor of `ThreadInVMfromNative` on a thread in `_thread_in_vm` outside
any no-safepoint verifier. -/
theorem ThreadInVMfromNative_dtor_steps (E : Collaborators) (g : ThreadInVMfromNative)
    (m : Machine) (hs : m.thread.thread_state = _thread_in_vm)
    (hn : m.thread.no_safepoint_count = 0) :
    ∃ m2, ThreadInVMfromNative.dtor E g m = Result.ok () m2 ∧
      m.steps_to m2 _thread_in_native [_thread_in_native] := by
  refine ⟨m.make_walkable.storestore.set_thread_state _thread_in_native, ?_, ?_⟩
  · simp [ThreadInVMfromNative.dtor, transition_from_vm, vmassert,
      Machine.check_possible_safepoint, hs, hn]
  · simp [Machine.steps_to, Machine.set_thread_state, Machine.storestore, Machine.make_walkable,
      state_writes, Event.state_write]

/-- The sample pause coordinator keeps the fields read by the assertions. -/
theorem sampleCollaborators_keeps_checked_fields : sampleCollaborators.keeps_checked_fields := by
  refine ⟨fun t c => ?_, fun t a c => ?_⟩
  · simp [sampleCollaborators, JavaThread.same_checked_fields]
  · simp only [sampleCollaborators, JavaThread.same_checked_fields]
    split <;> simp

/-! ## The way back to the VM -/

/-- C11, as stated, fails: with `UseSystemMemoryBarrier` switched on,
`transition_from_native` writes `_thread_in_vm` with the plain `set_thread_state`;
its effects contain no fenced write. -/
theorem transition_from_native_plain_write_under_barrier :
    barrierCollaborators.UseSystemMemoryBarrier = true ∧
    transition_from_native barrierCollaborators (walkableMachine _thread_in_native 0 0)
        _thread_in_vm true
      = Result.ok ()
          { thread := (walkableMachine _thread_in_vm 0 0).thread
            trace := [Event.set_thread_state _thread_in_vm,
              Event.process_if_requested_with_exit_check _thread_in_vm false,
              Event.set_thread_state _thread_in_vm] } := by
  decide

/-- C11 (amended): whenever `transition_from_native` completes, its effects are the
write of `_thread_in_vm`, then the pause-coordinator call, then the write of the
destination; the first write is the fenced one exactly when `UseSystemMemoryBarrier`
is off, and the plain one when it is on. The destructor of
`ThreadBlockInVMPreprocess`, run on a thread in `_thread_blocked`, always starts
with the fenced write of `_thread_in_vm`, followed by the `should_process` call, and
writes the state nowhere else. -/
theorem reverse_transition_writes_before_poll (E : Collaborators) (m m1 : Machine)
    (to_state : JavaThreadState) (c : Bool) (g : ThreadBlockInVMPreprocess) :
    (transition_from_native E m to_state c = Result.ok () m1 →
      emitted m (transition_from_native E m to_state c)
        = [if E.UseSystemMemoryBarrier = false then Event.set_thread_state_fence _thread_in_vm
            else Event.set_thread_state _thread_in_vm,
           Event.process_if_requested_with_exit_check _thread_in_vm
             (if to_state ≠ _thread_in_Java then false else c),
           Event.set_thread_state to_state]) ∧
    (m.thread.thread_state = _thread_blocked →
      ∃ rest, emitted m (ThreadBlockInVMPreprocess.dtor E g m)
          = Event.set_thread_state_fence _thread_in_vm ::
            Event.should_process _thread_in_vm g._allow_suspend :: rest ∧
        ∀ e ∈ rest, e.state_write = none) := by
  refine ⟨?_, ?_⟩
  · intro h
    rw [h]
    rw [transition_from_native_ok_iff] at h
    obtain ⟨_, _, _, rfl⟩ := h
    cases hU : E.UseSystemMemoryBarrier <;>
    simp [emitted, Result.machine, Machine.set_thread_state, Machine.set_thread_state_fence,
      Machine.process_if_requested_with_exit_check, hU]
  · intro hs
    by_cases hp : E.should_process (m.set_thread_state_fence _thread_in_vm).thread
        g._allow_suspend = true
    · refine ⟨[Event.pre_proc _thread_in_vm,
        Event.process_if_requested (g._pr (m.set_thread_state_fence _thread_in_vm).thread).thread_state
          g._allow_suspend false], ?_, ?_⟩
      · simp only [ThreadBlockInVMPreprocess.dtor, vmassert, hs, hp, if_true]
        simp [emitted, Result.machine, Machine.process_if_requested, Machine.pre_proc,
          Machine.should_process, Machine.set_thread_state_fence]
      · simp [Event.state_write]
    · refine ⟨[], ?_, ?_⟩
      · simp only [ThreadBlockInVMPreprocess.dtor, vmassert, hs, hp, if_true]
        simp [emitted, Result.machine, Machine.should_process, Machine.set_thread_state_fence]
      · simp

/-- Witness of `reverse_transition_writes_before_poll`: the way back from
`_thread_in_native` with `UseSystemMemoryBarrier` off. -/
theorem reverse_transition_writes_before_poll_witness :
    emitted (walkableMachine _thread_in_native 0 0)
        (transition_from_native sampleCollaborators (walkableMachine _thread_in_native 0 0)
          _thread_in_vm true)
      = [if sampleCollaborators.UseSystemMemoryBarrier = false
            then Event.set_thread_state_fence _thread_in_vm
            else Event.set_thread_state _thread_in_vm,
         Event.process_if_requested_with_exit_check _thread_in_vm
           (if _thread_in_vm ≠ _thread_in_Java then false else true),
         Event.set_thread_state _thread_in_vm] :=
  (reverse_transition_writes_before_poll sampleCollaborators
    (walkableMachine _thread_in_native 0 0)
    (transition_from_native sampleCollaborators (walkableMachine _thread_in_native 0 0)
      _thread_in_vm true).machine
    _thread_in_vm true { _pr := ThreadBlockInVM.emptyOp, _allow_suspend := false }).1
    (by decide)

/-! ## The state in which the pause coordinator is called -/

/-- C12, as stated, fails: the destructor of `ThreadBlockInVMPreprocess` runs the
call-back between the fenced write of `_thread_in_vm` and
`process_if_requested`; with a call-back that writes the thread state, the call of
`process_if_requested` is made in the state the call-back left, here
`_thread_in_Java`. -/
theorem process_if_requested_after_state_writing_callback :
    emitted handshakeMachine
        (ThreadBlockInVMPreprocess.dtor sampleCollaborators
          { _pr := stateWritingOp, _allow_suspend := true } handshakeMachine)
      = [Event.set_thread_state_fence _thread_in_vm,
         Event.should_process _thread_in_vm true,
         Event.pre_proc _thread_in_vm,
         Event.process_if_requested _thread_in_Java true false] := by
  decide

/-- C12 (amended): every call of `process_if_requested_with_exit_check` made by
`transition_from_native` and `transition_from_vm`, and the call of `should_process`
made by the destructor of the blocking guard, happens in state `_thread_in_vm`; the
call of `process_if_requested` in that destructor happens in the state in which the
call-back returns, which is `_thread_in_vm` whenever the call-back leaves the state
alone (as the empty call-back of `ThreadBlockInVM` does). In all three, no state
write other than to `_thread_in_vm` precedes a pause-coordinator call, and
`transition_from_native` to `_thread_in_Java` writes `_thread_in_vm`, polls, and only
then writes `_thread_in_Java`. -/
theorem polls_happen_in_vm (E : Collaborators) (m : Machine) (to_state : JavaThreadState)
    (c : Bool) (g : ThreadBlockInVMPreprocess) :
    (∀ e ∈ emitted m (transition_from_native E m to_state c),
      e.is_poll = true → e.at_state = some _thread_in_vm) ∧
    (∀ e ∈ emitted m (transition_from_vm E m to_state c),
      e.is_poll = true → e.at_state = some _thread_in_vm) ∧
    (∀ e ∈ emitted m (ThreadBlockInVMPreprocess.dtor E g m),
      e.is_poll = true →
        e.at_state = some _thread_in_vm ∨
        e = Event.process_if_requested
          (g._pr (m.set_thread_state_fence _thread_in_vm).thread).thread_state
          g._allow_suspend false) ∧
    ((∀ t, (g._pr t).thread_state = t.thread_state) →
      ∀ e ∈ emitted m (ThreadBlockInVMPreprocess.dtor E g m),
        e.is_poll = true → e.at_state = some _thread_in_vm) ∧
    (∀ a, ∀ e ∈ emitted m (ThreadBlockInVMPreprocess.dtor E
        { _pr := ThreadBlockInVM.emptyOp, _allow_suspend := a } m),
      e.is_poll = true → e.at_state = some _thread_in_vm) ∧
    polls_follow_vm_writes none (emitted m (transition_from_native E m to_state c)) = true ∧
    polls_follow_vm_writes (some m.thread.thread_state)
      (emitted m (transition_from_vm E m to_state c)) = true ∧
    polls_follow_vm_writes none (emitted m (ThreadBlockInVMPreprocess.dtor E g m)) = true ∧
    (∀ m1, transition_from_native E m _thread_in_Java c = Result.ok () m1 →
      state_writes (emitted m (transition_from_native E m _thread_in_Java c))
        = [_thread_in_vm, _thread_in_Java] ∧
      ∃ w, emitted m (transition_from_native E m _thread_in_Java c)
        = [w, Event.process_if_requested_with_exit_check _thread_in_vm c,
           Event.set_thread_state _thread_in_Java]) := by
  refine ⟨?_, ?_, ?_, ?_, ?_, ?_, ?_, ?_, ?_⟩
  · simp only [transition_from_native, vmassert]
    split_ifs <;>
    simp_all [emitted, Result.machine, Machine.set_thread_state, Machine.set_thread_state_fence,
      Machine.process_if_requested_with_exit_check, Event.is_poll, Event.at_state]
  · simp only [transition_from_vm, vmassert, Machine.check_possible_safepoint]
    split_ifs <;>
    simp_all [emitted, Result.machine, Machine.set_thread_state, Machine.storestore,
      Machine.make_walkable, Machine.process_if_requested_with_exit_check, Event.is_poll,
      Event.at_state]
  · simp only [ThreadBlockInVMPreprocess.dtor, vmassert]
    split_ifs <;>
    simp_all [emitted, Result.machine, Machine.set_thread_state_fence, Machine.should_process,
      Machine.pre_proc, Machine.process_if_requested, Event.is_poll, Event.at_state]
  · intro hpr
    simp only [ThreadBlockInVMPreprocess.dtor, vmassert]
    split_ifs <;>
    simp_all [emitted, Result.machine, Machine.set_thread_state_fence, Machine.should_process,
      Machine.pre_proc, Machine.process_if_requested, Event.is_poll, Event.at_state]
  · intro a
    simp only [ThreadBlockInVMPreprocess.dtor, vmassert]
    split_ifs <;>
    simp_all [emitted, Result.machine, Machine.set_thread_state_fence, Machine.should_process,
      Machine.pre_proc, Machine.process_if_requested, Event.is_poll, Event.at_state,
      ThreadBlockInVM.emptyOp]
  · simp only [transition_from_native, vmassert]
    split_ifs <;>
    simp_all [emitted, Result.machine, Machine.set_thread_state, Machine.set_thread_state_fence,
      Machine.process_if_requested_with_exit_check, Event.is_poll, Event.state_write,
      polls_follow_vm_writes]
  · simp only [transition_from_vm, vmassert, Machine.check_possible_safepoint]
    split_ifs <;>
    simp_all [emitted, Result.machine, Machine.set_thread_state, Machine.storestore,
      Machine.make_walkable, Machine.process_if_requested_with_exit_check, Event.is_poll,
      Event.state_write, polls_follow_vm_writes]
  · simp only [ThreadBlockInVMPreprocess.dtor, vmassert]
    split_ifs <;>
    simp_all [emitted, Result.machine, Machine.set_thread_state_fence, Machine.should_process,
      Machine.pre_proc, Machine.process_if_requested, Event.is_poll, Event.state_write,
      polls_follow_vm_writes]
  · intro m1 h
    rw [h]
    rw [transition_from_native_ok_iff] at h
    obtain ⟨_, _, _, rfl⟩ := h
    cases hU : E.UseSystemMemoryBarrier <;>
    simp [emitted, Result.machine, Machine.set_thread_state, Machine.set_thread_state_fence,
      Machine.process_if_requested_with_exit_check, state_writes, Event.state_write]

/-- Witness of `polls_happen_in_vm`: the destructor of a blocking guard with the
empty call-back, run while a handshake is requested. -/
theorem polls_happen_in_vm_witness :
    ∀ e ∈ emitted handshakeMachine
        (ThreadBlockInVMPreprocess.dtor sampleCollaborators
          { _pr := ThreadBlockInVM.emptyOp, _allow_suspend := true } handshakeMachine),
      e.is_poll = true → e.at_state = some _thread_in_vm :=
  (polls_happen_in_vm sampleCollaborators handshakeMachine _thread_in_vm true
    { _pr := ThreadBlockInVM.emptyOp, _allow_suspend := true }).2.2.2.1 (fun _ => rfl)

/-! ## Leaving native code through `ThreadToNativeFromVM` -/

/-- C13, as stated, fails: on a thread in `_thread_in_native` with no JNI exception
check pending, whose last Java frame is not walkable, the destructor of
`ThreadToNativeFromVM` does not complete: `transition_from_native` fails its
walkability assertion before any write, and the state stays `_thread_in_native`. -/
theorem ThreadToNativeFromVM_dtor_refuses_unwalkable_stack :
    (sampleMachine _thread_in_native 0 0).thread.thread_state = _thread_in_native ∧
    (sampleMachine _thread_in_native 0 0).thread.is_pending_jni_exception_check = false ∧
    ThreadToNativeFromVM.dtor sampleCollaborators {} (sampleMachine _thread_in_native 0 0)
      = Result.fatal Assertion.unwalkable_stack_in_native_transition
          (sampleMachine _thread_in_native 0 0) := by
  decide

/-- C13 (amended): for every thread in `_thread_in_native` whose stack is walkable
or which has no last Java frame, the destructor of `ThreadToNativeFromVM` performs
the edge to `_thread_in_vm` (`transition_from_native` completes) and then checks the
JNI exception check: if one is pending when the pause coordinator has returned, the
destructor fails that assertion, with the state already `_thread_in_vm`; otherwise it
completes with state `_thread_in_vm`. A pause coordinator that leaves the pending
check alone makes this the check that was pending when the destructor started. -/
theorem ThreadToNativeFromVM_dtor_checks_jni (E : Collaborators) (g : ThreadToNativeFromVM)
    (m : Machine) (hs : m.thread.thread_state = _thread_in_native)
    (hw : m.thread.has_last_Java_frame = false ∨ m.thread.frame_anchor.walkable = true) :
    transition_from_native E m _thread_in_vm true = Result.ok () (m.entered_vm_from_native E) ∧
    (m.entered_vm_from_native E).thread.thread_state = _thread_in_vm ∧
    ((m.entered_vm_from_native E).thread.is_pending_jni_exception_check = true →
      ThreadToNativeFromVM.dtor E g m
        = Result.fatal Assertion.pending_JNI_exception_check (m.entered_vm_from_native E)) ∧
    ((m.entered_vm_from_native E).thread.is_pending_jni_exception_check = false →
      ThreadToNativeFromVM.dtor E g m = Result.ok () (m.entered_vm_from_native E)) ∧
    ((∀ t, (E.process_if_requested_with_exit_check t false).is_pending_jni_exception_check
        = t.is_pending_jni_exception_check) →
      (m.entered_vm_from_native E).thread.is_pending_jni_exception_check
        = m.thread.is_pending_jni_exception_check) := by
  have h1 : transition_from_native E m _thread_in_vm true
      = Result.ok () (m.entered_vm_from_native E) := by
    rw [transition_from_native_ok_iff]
    exact ⟨hs, Or.inl rfl, hw, by simp [Machine.entered_vm_from_native]⟩
  refine ⟨h1, ?_, ?_, ?_, ?_⟩
  · simp [Machine.entered_vm_from_native, Machine.set_thread_state]
  · intro hp
    simp [ThreadToNativeFromVM.dtor, h1, Result.bind, vmassert, hp]
  · intro hp
    simp [ThreadToNativeFromVM.dtor, h1, Result.bind, vmassert, hp]
  · intro hE
    have h2 := hE (m.set_thread_state_fence _thread_in_vm).thread
    have h3 := hE (m.set_thread_state _thread_in_vm).thread
    cases hU : E.UseSystemMemoryBarrier <;>
    simp_all [Machine.entered_vm_from_native, Machine.set_thread_state,
      Machine.set_thread_state_fence, Machine.process_if_requested_with_exit_check,
      JavaThread.is_pending_jni_exception_check]

/-- Witness of `ThreadToNativeFromVM_dtor_checks_jni`: a thread in
`_thread_in_native` with a walkable stack and a JNI exception check pending. -/
theorem ThreadToNativeFromVM_dtor_checks_jni_witness :
    ThreadToNativeFromVM.dtor sampleCollaborators {}
        { thread := { (walkableMachine _thread_in_native 0 0).thread with
            pending_jni_exception_check := true },
          trace := [] }
      = Result.fatal Assertion.pending_JNI_exception_check
          (Machine.entered_vm_from_native sampleCollaborators
            { thread := { (walkableMachine _thread_in_native 0 0).thread with
                pending_jni_exception_check := true },
              trace := [] }) :=
  (ThreadToNativeFromVM_dtor_checks_jni sampleCollaborators {}
    { thread := { (walkableMachine _thread_in_native 0 0).thread with
        pending_jni_exception_check := true },
      trace := [] } (by decide) (by decide)).2.2.1 (by decide)

/-! ## Nested guards -/

/-- C14, as stated, fails: a thread in `_thread_in_Java` that holds no lock, is
outside any no-safepoint verifier and has a JNI exception check pending enters an
outer `ThreadInVMfromJava` whose body constructs and destroys a
`ThreadToNativeFromVM`; the destructor of the inner guard fails the assertion
"Pending JNI Exception Check". And a thread in `_thread_in_native` whose last Java
frame is not walkable is refused by the constructor of an outer
`ThreadInVMfromNative`. -/
theorem nested_guards_can_fail :
    ThreadInVMfromJava.scope sampleCollaborators true
        (ThreadToNativeFromVM.scope sampleCollaborators empty_body)
        { thread := { sampleThread _thread_in_Java 0 0 with pending_jni_exception_check := true },
          trace := [] }
      = Result.fatal Assertion.pending_JNI_exception_check
          { thread := { sampleThread _thread_in_vm 0 0 with
              pending_jni_exception_check := true
              frame_anchor := { has_last_Java_frame := true, walkable := true } },
            trace := [Event.set_thread_state _thread_in_vm, Event.make_walkable,
              Event.storestore, Event.set_thread_state _thread_in_native,
              Event.set_thread_state_fence _thread_in_vm,
              Event.process_if_requested_with_exit_check _thread_in_vm false,
              Event.set_thread_state _thread_in_vm] } ∧
    ThreadInVMfromNative.scope sampleCollaborators
        (ThreadBlockInVM.scope sampleCollaborators false empty_body)
        (sampleMachine _thread_in_native 0 0)
      = Result.fatal Assertion.unwalkable_stack_in_native_transition
          (sampleMachine _thread_in_native 0 0) := by
  decide

/-- C14 (amended): for a pause coordinator that returns with the fields read by the
assertions unchanged, and a thread that holds no lock and is outside any
no-safepoint verifier: starting in `_thread_in_Java` (resp. in `_thread_in_native`
with a walkable stack or no last Java frame), an outer `ThreadInVMfromJava` (resp.
`ThreadInVMfromNative`) whose body constructs and destroys an inner `ThreadBlockInVM`,
or, when no JNI exception check is pending, an inner `ThreadToNativeFromVM`, runs
without a failed assertion, ends in the starting state, and goes through the states
start, `_thread_in_vm`, `_thread_blocked` or `_thread_in_native`, `_thread_in_vm`,
start in that order: the write of the inner destructor comes before the write of the
outer destructor. -/
theorem guards_nest (E : Collaborators) (m : Machine) (c a : Bool)
    (hE : E.keeps_checked_fields)
    (hl : m.thread.owned_locks = 0) (hn : m.thread.no_safepoint_count = 0) :
    (m.thread.thread_state = _thread_in_Java →
      (∃ m2, ThreadInVMfromJava.scope E c (ThreadBlockInVM.scope E a empty_body) m
            = Result.ok () m2 ∧
          m2.thread.thread_state = _thread_in_Java ∧
          visited _thread_in_Java
              (emitted m (ThreadInVMfromJava.scope E c (ThreadBlockInVM.scope E a empty_body) m))
            = [_thread_in_Java, _thread_in_vm, _thread_blocked, _thread_in_vm,
               _thread_in_Java]) ∧
      (m.thread.pending_jni_exception_check = false →
        ∃ m2, ThreadInVMfromJava.scope E c (ThreadToNativeFromVM.scope E empty_body) m
            = Result.ok () m2 ∧
          m2.thread.thread_state = _thread_in_Java ∧
          visited _thread_in_Java
              (emitted m (ThreadInVMfromJava.scope E c (ThreadToNativeFromVM.scope E empty_body) m))
            = [_thread_in_Java, _thread_in_vm, _thread_in_native, _thread_in_vm,
               _thread_in_Java])) ∧
    (m.thread.thread_state = _thread_in_native →
      (m.thread.has_last_Java_frame = false ∨ m.thread.frame_anchor.walkable = true) →
      (∃ m2, ThreadInVMfromNative.scope E (ThreadBlockInVM.scope E a empty_body) m
            = Result.ok () m2 ∧
          m2.thread.thread_state = _thread_in_native ∧
          visited _thread_in_native
              (emitted m (ThreadInVMfromNative.scope E (ThreadBlockInVM.scope E a empty_body) m))
            = [_thread_in_native, _thread_in_vm, _thread_blocked, _thread_in_vm,
               _thread_in_native]) ∧
      (m.thread.pending_jni_exception_check = false →
        ∃ m2, ThreadInVMfromNative.scope E (ThreadToNativeFromVM.scope E empty_body) m
            = Result.ok () m2 ∧
          m2.thread.thread_state = _thread_in_native ∧
          visited _thread_in_native
              (emitted m (ThreadInVMfromNative.scope E (ThreadToNativeFromVM.scope E empty_body) m))
            = [_thread_in_native, _thread_in_vm, _thread_in_native, _thread_in_vm,
               _thread_in_native])) := by
  refine ⟨fun hs => ⟨?_, fun hj => ?_⟩, fun hs hw => ⟨?_, fun hj => ?_⟩⟩
  · obtain ⟨m1, e1, r1⟩ := ThreadInVMfromJava_ctor_steps m c hs
    obtain ⟨m2, e2, r2⟩ := ThreadBlockInVM_ctor_steps E m1 a r1.1 (r1.2.2.1.trans hn)
    obtain ⟨m3, e3, r3⟩ := ThreadBlockInVM_dtor_steps E m2 a hE r2.1
    obtain ⟨m4, e4, r4⟩ := ThreadInVMfromJava_dtor_steps E { _check_asyncs := c } m3 hE r3.1
    have r := Machine.steps_to_trans (Machine.steps_to_trans (Machine.steps_to_trans r1 r2) r3) r4
    have e : ThreadInVMfromJava.scope E c (ThreadBlockInVM.scope E a empty_body) m
        = Result.ok () m4 := by
      simp [ThreadInVMfromJava.scope, ThreadBlockInVM.scope, empty_body, e1, e2, e3, e4,
        Result.bind]
    refine ⟨m4, e, r.1, ?_⟩
    rw [e]
    simp [visited, Machine.steps_to_emitted r, collapse]
  · obtain ⟨m1, e1, r1⟩ := ThreadInVMfromJava_ctor_steps m c hs
    obtain ⟨m2, e2, r2, w2⟩ := ThreadToNativeFromVM_ctor_steps E m1 r1.1 (r1.2.1.trans hl)
      (r1.2.2.1.trans hn)
    obtain ⟨m3, e3, r3⟩ := ThreadToNativeFromVM_dtor_steps E {} m2 hE r2.1 (Or.inr w2)
      (r2.2.2.2.1.trans (r1.2.2.2.1.trans hj))
    obtain ⟨m4, e4, r4⟩ := ThreadInVMfromJava_dtor_steps E { _check_asyncs := c } m3 hE r3.1
    have r := Machine.steps_to_trans (Machine.steps_to_trans (Machine.steps_to_trans r1 r2) r3) r4
    have e : ThreadInVMfromJava.scope E c (ThreadToNativeFromVM.scope E empty_body) m
        = Result.ok () m4 := by
      simp [ThreadInVMfromJava.scope, ThreadToNativeFromVM.scope, empty_body, e1, e2, e3, e4,
        Result.bind]
    refine ⟨m4, e, r.1, ?_⟩
    rw [e]
    simp [visited, Machine.steps_to_emitted r, collapse]
  · obtain ⟨m1, e1, r1⟩ := ThreadInVMfromNative_ctor_steps E m hE hs hw
    obtain ⟨m2, e2, r2⟩ := ThreadBlockInVM_ctor_steps E m1 a r1.1 (r1.2.2.1.trans hn)
    obtain ⟨m3, e3, r3⟩ := ThreadBlockInVM_dtor_steps E m2 a hE r2.1
    obtain ⟨m4, e4, r4⟩ := ThreadInVMfromNative_dtor_steps E {} m3 r3.1
      (r3.2.2.1.trans (r2.2.2.1.trans (r1.2.2.1.trans hn)))
    have r := Machine.steps_to_trans (Machine.steps_to_trans (Machine.steps_to_trans r1 r2) r3) r4
    have e : ThreadInVMfromNative.scope E (ThreadBlockInVM.scope E a empty_body) m
        = Result.ok () m4 := by
      simp [ThreadInVMfromNative.scope, ThreadBlockInVM.scope, empty_body, e1, e2, e3, e4,
        Result.bind]
    refine ⟨m4, e, r.1, ?_⟩
    rw [e]
    simp [visited, Machine.steps_to_emitted r, collapse]
  · obtain ⟨m1, e1, r1⟩ := ThreadInVMfromNative_ctor_steps E m hE hs hw
    obtain ⟨m2, e2, r2, w2⟩ := ThreadToNativeFromVM_ctor_steps E m1 r1.1 (r1.2.1.trans hl)
      (r1.2.2.1.trans hn)
    obtain ⟨m3, e3, r3⟩ := ThreadToNativeFromVM_dtor_steps E {} m2 hE r2.1 (Or.inr w2)
      (r2.2.2.2.1.trans (r1.2.2.2.1.trans hj))
    obtain ⟨m4, e4, r4⟩ := ThreadInVMfromNative_dtor_steps E {} m3 r3.1
      (r3.2.2.1.trans (r2.2.2.1.trans (r1.2.2.1.trans hn)))
    have r := Machine.steps_to_trans (Machine.steps_to_trans (Machine.steps_to_trans r1 r2) r3) r4
    have e : ThreadInVMfromNative.scope E (ThreadToNativeFromVM.scope E empty_body) m
        = Result.ok () m4 := by
      simp [ThreadInVMfromNative.scope, ThreadToNativeFromVM.scope, empty_body, e1, e2, e3, e4,
        Result.bind]
    refine ⟨m4, e, r.1, ?_⟩
    rw [e]
    simp [visited, Machine.steps_to_emitted r, collapse]

/-- Witness of `guards_nest`: a thread in `_thread_in_native` with a walkable stack,
an outer `ThreadInVMfromNative` and an inner `ThreadToNativeFromVM`. -/
theorem guards_nest_witness :
    ∃ m2, ThreadInVMfromNative.scope sampleCollaborators
          (ThreadToNativeFromVM.scope sampleCollaborators empty_body)
          (walkableMachine _thread_in_native 0 0)
        = Result.ok () m2 ∧
      m2.thread.thread_state = _thread_in_native ∧
      visited _thread_in_native
          (emitted (walkableMachine _thread_in_native 0 0)
            (ThreadInVMfromNative.scope sampleCollaborators
              (ThreadToNativeFromVM.scope sampleCollaborators empty_body)
              (walkableMachine _thread_in_native 0 0)))
        = [_thread_in_native, _thread_in_vm, _thread_in_native, _thread_in_vm,
           _thread_in_native] :=
  ((guards_nest sampleCollaborators (walkableMachine _thread_in_native 0 0) true true
    sampleCollaborators_keeps_checked_fields (by decide) (by decide)).2 (by decide)
    (Or.inr (by decide))).2 (by decide)

/-! ## Leaf boundaries -/

/-- C15: a leaf boundary (`VM_LEAF_BASE`, and `JRT_LEAF`, `JNI_LEAF`, `JVM_LEAF` built on
it) around a body that does not touch the thread leaves the machine as it was, for
every thread in every state: the state and the frame anchor are unchanged and nothing
is added to the trace, so no state is written and the pause coordinator is not
called. Around any body, the effects of the boundary are the effects of the body. -/
theorem leaf_boundary_makes_no_transition (m : Machine)
    (stack_aligned env_of_current_thread : Bool) (body : Machine → Result Unit) :
    ((VM_LEAF_BASE stack_aligned empty_body m).machine = m ∧
      (JRT_LEAF stack_aligned empty_body m).machine = m ∧
      (JNI_LEAF env_of_current_thread stack_aligned empty_body m).machine = m ∧
      (JVM_LEAF stack_aligned empty_body m).machine = m) ∧
    ((JRT_LEAF stack_aligned empty_body m).machine.thread.thread_state = m.thread.thread_state ∧
      (JRT_LEAF stack_aligned empty_body m).machine.thread.frame_anchor = m.thread.frame_anchor ∧
      emitted m (JRT_LEAF stack_aligned empty_body m) = [] ∧
      (JNI_LEAF env_of_current_thread stack_aligned empty_body m).machine.thread.thread_state
        = m.thread.thread_state ∧
      (JNI_LEAF env_of_current_thread stack_aligned empty_body m).machine.thread.frame_anchor
        = m.thread.frame_anchor ∧
      emitted m (JNI_LEAF env_of_current_thread stack_aligned empty_body m) = [] ∧
      (JVM_LEAF stack_aligned empty_body m).machine.thread.thread_state = m.thread.thread_state ∧
      (JVM_LEAF stack_aligned empty_body m).machine.thread.frame_anchor = m.thread.frame_anchor ∧
      emitted m (JVM_LEAF stack_aligned empty_body m) = []) ∧
    (emitted m (VM_LEAF_BASE stack_aligned body m)
        = (if stack_aligned = true then emitted m (body m) else []) ∧
      emitted m (JRT_LEAF stack_aligned body m)
        = (if stack_aligned = true then emitted m (body m.NoSafepointVerifier_ctor) else []) ∧
      emitted m (JNI_LEAF env_of_current_thread stack_aligned body m)
        = (if env_of_current_thread = true ∧ stack_aligned = true
            then emitted m (body m) else []) ∧
      emitted m (JVM_LEAF stack_aligned body m)
        = (if stack_aligned = true then emitted m (body m) else [])) := by
  have hm : ∀ x : Machine, x.NoSafepointVerifier_ctor.NoSafepointVerifier_dtor = x := by
    intro x
    simp [Machine.NoSafepointVerifier_ctor, Machine.NoSafepointVerifier_dtor]
  have h1 : (VM_LEAF_BASE stack_aligned empty_body m).machine = m := by
    cases stack_aligned <;> simp [VM_LEAF_BASE, vmassert, empty_body, Result.machine]
  have h2 : (JRT_LEAF stack_aligned empty_body m).machine = m := by
    cases stack_aligned <;>
      simp [JRT_LEAF, VM_LEAF_BASE, vmassert, empty_body, Result.machine, Result.bind, hm]
  have h3 : (JNI_LEAF env_of_current_thread stack_aligned empty_body m).machine = m := by
    cases stack_aligned <;> cases env_of_current_thread <;>
      simp [JNI_LEAF, VM_LEAF_BASE, vmassert, empty_body, Result.machine]
  have h4 : (JVM_LEAF stack_aligned empty_body m).machine = m := h1
  refine ⟨⟨h1, h2, h3, h4⟩, ?_, ?_⟩
  · simp [emitted, h2, h3, h4]
  · refine ⟨?_, ?_, ?_, ?_⟩
    · cases stack_aligned <;> simp [VM_LEAF_BASE, vmassert, emitted, Result.machine]
    · cases stack_aligned
      · simp [JRT_LEAF, VM_LEAF_BASE, vmassert, emitted, Result.machine]
      · simp only [JRT_LEAF, VM_LEAF_BASE, vmassert, if_true]
        cases body m.NoSafepointVerifier_ctor <;>
          simp [emitted, Result.machine, Result.bind, Machine.NoSafepointVerifier_dtor]
    · cases stack_aligned <;> cases env_of_current_thread <;>
        simp [JNI_LEAF, VM_LEAF_BASE, vmassert, emitted, Result.machine]
    · cases stack_aligned <;> simp [JVM_LEAF, VM_LEAF_BASE, vmassert, emitted, Result.machine]

/-! ## Failure atomicity -/

/-- C16: when `transition_from_java`, `transition_from_native` or `transition_from_vm`
ends in a failed assertion, the machine at the failure is the machine before the
call: state and frame anchor are unchanged and nothing has been added to the trace
(no write, no pause-coordinator call). The assertions that can fail are the four of
the engine: wrong source state, invalid destination, unwalkable stack, outstanding
no-safepoint verifier. -/
theorem failed_assertion_changes_nothing (E : Collaborators) (m m1 : Machine)
    (to_state : JavaThreadState) (c : Bool) (a : Assertion) :
    (transition_from_java m to_state = Result.fatal a m1 →
      m1 = m ∧ emitted m (transition_from_java m to_state) = [] ∧
      (a = Assertion.coming_from_wrong_thread_state ∨ a = Assertion.invalid_transition)) ∧
    (transition_from_native E m to_state c = Result.fatal a m1 →
      m1 = m ∧ emitted m (transition_from_native E m to_state c) = [] ∧
      (a = Assertion.coming_from_wrong_thread_state ∨ a = Assertion.invalid_transition ∨
        a = Assertion.unwalkable_stack_in_native_transition)) ∧
    (transition_from_vm E m to_state c = Result.fatal a m1 →
      m1 = m ∧ emitted m (transition_from_vm E m to_state c) = [] ∧
      (a = Assertion.coming_from_wrong_thread_state ∨ a = Assertion.invalid_transition ∨
        a = Assertion.possible_safepoint_reached)) := by
  refine ⟨?_, ?_, ?_⟩
  · intro h
    rw [h]
    simp only [transition_from_java, vmassert] at h
    split_ifs at h <;> simp_all [emitted, Result.machine]
  · intro h
    rw [h]
    simp only [transition_from_native, vmassert] at h
    split_ifs at h <;> simp_all [emitted, Result.machine]
  · intro h
    rw [h]
    simp only [transition_from_vm, vmassert, Machine.check_possible_safepoint] at h
    split_ifs at h <;> simp_all [emitted, Result.machine]

/-- Witness of `failed_assertion_changes_nothing`: `transition_from_vm` to
`_thread_blocked` inside a no-safepoint verifier. -/
theorem failed_assertion_changes_nothing_witness :
    sampleMachine _thread_in_vm 0 1 = sampleMachine _thread_in_vm 0 1 ∧
    emitted (sampleMachine _thread_in_vm 0 1)
      (transition_from_vm sampleCollaborators (sampleMachine _thread_in_vm 0 1)
        _thread_blocked true) = [] ∧
    (Assertion.possible_safepoint_reached = Assertion.coming_from_wrong_thread_state ∨
      Assertion.possible_safepoint_reached = Assertion.invalid_transition ∨
      Assertion.possible_safepoint_reached = Assertion.possible_safepoint_reached) :=
  (failed_assertion_changes_nothing sampleCollaborators (sampleMachine _thread_in_vm 0 1)
    (sampleMachine _thread_in_vm 0 1) _thread_blocked true
    Assertion.possible_safepoint_reached).2.2 (by decide)

/-! ## The yellow zone on the way back to Java -/

/-- C17: the destructor of `ThreadInVMfromJava`, run on a thread in `_thread_in_vm`,
calls `enable_stack_yellow_reserved_zone` exactly once when the zone is disabled on
entry, before the pause-coordinator call and before the write of `_thread_in_Java`,
and does not call it when the zone is not disabled. The zone is then in the state
`enable_stack_yellow_reserved_zone` returns: if that state is not disabled, the zone
is not disabled when the pause coordinator is called, and not at the end either if
the pause coordinator leaves the stack-overflow state alone. -/
theorem ThreadInVMfromJava_dtor_reenables_yellow_zone (E : Collaborators)
    (g : ThreadInVMfromJava) (m : Machine) (hs : m.thread.thread_state = _thread_in_vm) :
    (m.thread.stack_overflow_state.stack_yellow_reserved_zone_disabled = true →
      ThreadInVMfromJava.dtor E g m
        = Result.ok ()
            (((m.enable_stack_yellow_reserved_zone E).process_if_requested_with_exit_check E
              g._check_asyncs).set_thread_state _thread_in_Java) ∧
      emitted m (ThreadInVMfromJava.dtor E g m)
        = [Event.enable_stack_yellow_reserved_zone,
           Event.process_if_requested_with_exit_check _thread_in_vm g._check_asyncs,
           Event.set_thread_state _thread_in_Java] ∧
      (m.enable_stack_yellow_reserved_zone E).thread.stack_overflow_state
        = E.enable_stack_yellow_reserved_zone m.thread.stack_overflow_state ∧
      ((E.enable_stack_yellow_reserved_zone
            m.thread.stack_overflow_state).stack_yellow_reserved_zone_disabled = false →
        (∀ t b, (E.process_if_requested_with_exit_check t b).stack_overflow_state
          = t.stack_overflow_state) →
        (ThreadInVMfromJava.dtor E g
          m).machine.thread.stack_overflow_state.stack_yellow_reserved_zone_disabled
          = false)) ∧
    (m.thread.stack_overflow_state.stack_yellow_reserved_zone_disabled = false →
      ThreadInVMfromJava.dtor E g m
        = Result.ok ()
            ((m.process_if_requested_with_exit_check E g._check_asyncs).set_thread_state
              _thread_in_Java) ∧
      emitted m (ThreadInVMfromJava.dtor E g m)
        = [Event.process_if_requested_with_exit_check _thread_in_vm g._check_asyncs,
           Event.set_thread_state _thread_in_Java] ∧
      ((∀ t b, (E.process_if_requested_with_exit_check t b).stack_overflow_state
          = t.stack_overflow_state) →
        (ThreadInVMfromJava.dtor E g
          m).machine.thread.stack_overflow_state.stack_yellow_reserved_zone_disabled
          = false)) := by
  refine ⟨?_, ?_⟩
  · intro hy
    have key : ThreadInVMfromJava.dtor E g m
        = Result.ok ()
            (((m.enable_stack_yellow_reserved_zone E).process_if_requested_with_exit_check E
              g._check_asyncs).set_thread_state _thread_in_Java) := by
      simp [ThreadInVMfromJava.dtor, transition_from_vm, vmassert, hs, hy,
        Machine.enable_stack_yellow_reserved_zone]
    refine ⟨key, ?_, rfl, ?_⟩
    · rw [key]
      simp [emitted, Result.machine, Machine.set_thread_state,
        Machine.process_if_requested_with_exit_check, Machine.enable_stack_yellow_reserved_zone,
        hs]
    · intro he hp
      rw [key]
      simp [Result.machine, Machine.set_thread_state,
        Machine.process_if_requested_with_exit_check, Machine.enable_stack_yellow_reserved_zone,
        hp, he]
  · intro hy
    have key : ThreadInVMfromJava.dtor E g m
        = Result.ok ()
            ((m.process_if_requested_with_exit_check E g._check_asyncs).set_thread_state
              _thread_in_Java) := by
      simp [ThreadInVMfromJava.dtor, transition_from_vm, vmassert, hs, hy]
    refine ⟨key, ?_, ?_⟩
    · rw [key]
      simp [emitted, Result.machine, Machine.set_thread_state,
        Machine.process_if_requested_with_exit_check, hs]
    · intro hp
      rw [key]
      simp [Result.machine, Machine.set_thread_state,
        Machine.process_if_requested_with_exit_check, hp, hy]

/-- Witness of `ThreadInVMfromJava_dtor_reenables_yellow_zone`: a thread in
`_thread_in_vm` whose yellow zone is disabled. -/
theorem ThreadInVMfromJava_dtor_reenables_yellow_zone_witness :
    emitted
        { thread := { sampleThread _thread_in_vm 0 0 with
            stack_overflow_state := { stack_yellow_reserved_zone_disabled := true } },
          trace := [] }
        (ThreadInVMfromJava.dtor sampleCollaborators { _check_asyncs := true }
          { thread := { sampleThread _thread_in_vm 0 0 with
              stack_overflow_state := { stack_yellow_reserved_zone_disabled := true } },
            trace := [] })
      = [Event.enable_stack_yellow_reserved_zone,
         Event.process_if_requested_with_exit_check _thread_in_vm true,
         Event.set_thread_state _thread_in_Java] :=
  ((ThreadInVMfromJava_dtor_reenables_yellow_zone sampleCollaborators { _check_asyncs := true }
    { thread := { sampleThread _thread_in_vm 0 0 with
        stack_overflow_state := { stack_yellow_reserved_zone_disabled := true } },
      trace := [] } (by decide)).1 (by decide)).2.1

end InterfaceSupport
